import Mathlib

/-!
Verification development for the benchmark-runner of this repository: a
shallow embedding of `benchmark-service/inspect_runner.py` together with
theorems settling the specified testable properties.

Modelling conventions:
* Python dictionaries read from the Inspect AI log are embedded as Lean
  structures whose fields carry the values the runner actually reads; a
  missing key is `Option.none` (or `""` / `0` where the source reads
  `dict.get(key, default)` with that default).
* Python floats are embedded as exact rationals (`ℚ`); `int(x)` applied
  to a nonnegative float is truncation, i.e. the floor.
* The regular-expression searches of the source are embedded as
  executable character-list scanners with the semantics of the concrete
  patterns used (leftmost match; the character classes are taken in
  their ASCII reading, which is what occurs in the logs).
* Python functions that can only raise on data shapes outside the log
  schema are embedded as total functions on the schema.
-/

/-- Python `str.upper()` on the character data of a string. -/
def strUpper (s : String) : String :=
  String.mk (s.data.map Char.toUpper)

/-- Python `str.lower()` on the character data of a string. -/
def strLower (s : String) : String :=
  String.mk (s.data.map Char.toLower)

/-- Python `str.strip()`: remove leading and trailing whitespace. -/
def pyStrip (s : String) : String :=
  String.mk
    (((s.data.dropWhile (fun c => c.isWhitespace)).reverse.dropWhile
      (fun c => c.isWhitespace)).reverse)

/-- Error codes of the runner (`ErrorCode` enum, inspect_runner.py). -/
inductive ErrorCode where
  | INSPECT_NOT_INSTALLED
  | EVALS_NOT_INSTALLED
  | BENCHMARK_NOT_FOUND
  | PROVIDER_NOT_FOUND
  | API_KEY_MISSING
  | EVALUATION_TIMEOUT
  | EVALUATION_FAILED
  | INVALID_PARAMETER
  | PARSE_ERROR
  deriving DecidableEq

/-- Characters of the regex class `\s` as it applies to the log text. -/
def isSpaceCh (c : Char) : Bool :=
  c = ' ' || c = '\t' || c = '\n' || c = '\r' || c = '\x0b' || c = '\x0c'

/-- Characters of the regex class `\w` (word characters). -/
def isWordCh (c : Char) : Bool :=
  c.isAlpha || c.isDigit || c = '_'

/-- Characters of the capture class `[A-Ea-e]` of the answer pattern. -/
def isAnsLetter (c : Char) : Bool :=
  ('A' ≤ c && c ≤ 'E') || ('a' ≤ c && c ≤ 'e')

/-- If `cs` starts with one of the literals `ANSWER`, `Answer`, `answer`
(the alternation of the source pattern, all of length six), return the
remaining characters. -/
def answerLitRest : List Char → Option (List Char)
  | a :: b :: c :: d :: e :: f :: rest =>
    if [a, b, c, d, e, f] = "ANSWER".data || [a, b, c, d, e, f] = "Answer".data
        || [a, b, c, d, e, f] = "answer".data then some rest
    else none
  | _ => none

/-- Greedily drop the separators matched by `[:\s]*`. -/
def dropSeps : List Char → List Char
  | [] => []
  | c :: cs => if c = ':' || isSpaceCh c then dropSeps cs else c :: cs

/-- After the literal, the rest of the pattern `[:\s]*([A-Ea-e])\b`:
greedily skip separators, require an answer letter, require a word
boundary after it.  (The separator class and the letter class are
disjoint, so the greedy match never needs to backtrack.) -/
def answerTail (cs : List Char) : Option Char :=
  match dropSeps cs with
  | [] => none
  | c :: rest =>
    if isAnsLetter c && (match rest with | [] => true | d :: _ => !isWordCh d) then some c
    else none

/-- Leftmost search (`re.search`) for the source pattern
`(?:ANSWER|Answer|answer)[:\s]*([A-Ea-e])\b`, returning the captured
letter. -/
def findAnswer : List Char → Option Char
  | [] => none
  | c :: cs =>
    match answerLitRest (c :: cs) with
    | some rest =>
      match answerTail rest with
      | some ch => some ch
      | none => findAnswer cs
    | none => findAnswer cs

/-- The same search on a string. -/
def findAnswerS (s : String) : Option Char :=
  findAnswer s.data

/-- One block of a structured message content
(`choices[0].message.content` when it is a list): a `text` block, a
`reasoning` block with a summary, or any other shape (skipped by the
source loop). -/
inductive ContentBlock where
  | text (t : String)
  | reasoning (summary : String)
  | other
  deriving DecidableEq

/-- `choices[0].message.content`: a list of blocks, a plain string, or
any other JSON value (for which both isinstance branches fail). -/
inductive MessageContent where
  | blocks (bs : List ContentBlock)
  | str (s : String)
  | other
  deriving DecidableEq

/-- The `scores["choice"]` record of a sample; a missing key is `""`. -/
structure ChoiceScore where
  explanation : String := ""
  value : String := ""
  answer : String := ""
  deriving DecidableEq

/-- The parts of one parsed log sample that the runner reads.
`choices` carries `message.content` of each element of
`output.choices`; `oldScoreValue` is `score.value` of the legacy format
(`none` when the key is missing or the value is not the integer read);
the last five fields feed the latency extraction. -/
structure Sample where
  choices : List MessageContent := []
  completion : String := ""
  scoresChoice : Option ChoiceScore := none
  target : String := ""
  oldScoreValue : Option Int := none
  hasModelUsage : Bool := false
  usageLatencyMs : ℚ := 0
  usageLatency : ℚ := 0
  createdAt : Option ℚ := none
  completedAt : Option ℚ := none
  deriving DecidableEq, Inhabited

/-- Scan the content blocks in order: `text` blocks are searched
directly; `reasoning` blocks only when their summary is nonempty; other
blocks are skipped. -/
def searchBlocks : List ContentBlock → Option Char
  | [] => none
  | ContentBlock.text t :: rest =>
    match findAnswerS t with
    | some c => some c
    | none => searchBlocks rest
  | ContentBlock.reasoning sum :: rest =>
    if sum ≠ "" then
      match findAnswerS sum with
      | some c => some c
      | none => searchBlocks rest
    else searchBlocks rest
  | ContentBlock.other :: rest => searchBlocks rest

/-- `extract_predicted`: the fallback chain raw message content →
reasoning summary → raw completion → scorer explanation → scorer bare
value (the last only when it is a valid answer letter). -/
def extract_predicted (s : Sample) : String :=
  let fromContent : Option Char :=
    match s.choices.head? with
    | some (MessageContent.blocks bs) => searchBlocks bs
    | some (MessageContent.str t) => findAnswerS t
    | some MessageContent.other => none
    | none => none
  match fromContent with
  | some c => String.singleton c.toUpper
  | none =>
    match (if s.completion ≠ "" then findAnswerS s.completion else none) with
    | some c => String.singleton c.toUpper
    | none =>
      match s.scoresChoice with
      | some cs =>
        match (if cs.explanation ≠ "" then findAnswerS cs.explanation else none) with
        | some c => String.singleton c.toUpper
        | none =>
          if cs.value ≠ "" && (strUpper cs.value = "A" || strUpper cs.value = "B"
              || strUpper cs.value = "C" || strUpper cs.value = "D"
              || strUpper cs.value = "E") then
            strUpper cs.value
          else ""
      | none => ""

/-- `extract_expected`: the `target` field is authoritative (stripped
when truthy); the scorer's `answer` field is the fallback. -/
def extract_expected (s : Sample) : String :=
  if s.target ≠ "" then pyStrip s.target
  else
    match s.scoresChoice with
    | some cs => cs.answer
    | none => ""

/-- `is_sample_correct`: with a `choice` score, compare the extracted
predicted and expected answers case-insensitively (false when either is
empty); otherwise fall back to the legacy `score.value == 1` check. -/
def is_sample_correct (s : Sample) : Bool :=
  match s.scoresChoice with
  | some _ =>
    let predicted := extract_predicted s
    let expected := extract_expected s
    if predicted ≠ "" && expected ≠ "" then strUpper predicted = strUpper expected
    else false
  | none =>
    match s.oldScoreValue with
    | some v => v = 1
    | none => false

example : findAnswerS "I think. Answer: B" = some 'B' := by decide
example : findAnswerS "ANSWER:  c." = some 'c' := by decide
example : findAnswerS "Answerless text" = none := by decide
example : findAnswerS "Answer: Because" = none := by decide
example : findAnswerS "Answer: A then Answer: B" = some 'A' := by decide
example :
    extract_predicted
      { choices := [MessageContent.str "Answer: B"],
        scoresChoice := some { value := "A" } } = "B" := by decide
example :
    is_sample_correct
      { choices := [MessageContent.str "Answer: B"], target := "B",
        scoresChoice := some { value := "A" } } = true := by decide
example :
    is_sample_correct { oldScoreValue := some 1 } = true := by decide

/-- Substring test, Python `needle in hay`. -/
def strContains (hay needle : String) : Bool :=
  (List.range (hay.data.length + 1)).any
    (fun i => needle.data.isPrefixOf (hay.data.drop i))

/-- The fixed pattern list of `is_reasoning_model`. -/
def reasoning_patterns : List String :=
  ["o1", "o3", "gpt-5",
   "claude-3-7", "claude-3.7", "claude-4",
   "deepseek-r1", "deepseek/r1",
   "gemini-2.5", "gemini-3", "deep-think", "deepthink",
   "phi-4-reasoning", "phi-reasoning",
   "-reasoning", "-thinking", "_reasoning", "_thinking"]

/-- `is_reasoning_model`: substring match of the lowercased model id
against the fixed pattern list. -/
def is_reasoning_model (model_id : String) : Bool :=
  reasoning_patterns.any (fun p => strContains (strLower model_id) p)

/-- The inner check of the builder for OpenAI reasoning models. -/
def is_openai_reasoning (model_id : String) : Bool :=
  ["o1", "o3", "gpt-5"].any (fun p => strContains (strLower model_id) p)

/-- A provider configuration record of the `PROVIDERS` table.
`model_pref` embeds the source field `model_prefix`. -/
structure ProviderConfig where
  name : String
  base_url : Option String
  api_key_env : String
  model_pref : String
  description : String
  deriving DecidableEq, Inhabited

/-- The `openrouter` entry of the `PROVIDERS` table. -/
def openrouterConfig : ProviderConfig :=
  { name := "OpenRouter", base_url := some "https://openrouter.ai/api/v1",
    api_key_env := "OPENROUTER_API_KEY", model_pref := "openai/",
    description := "Unified access to 200+ models via OpenRouter" }

/-- The `openai` entry of the `PROVIDERS` table. -/
def openaiConfig : ProviderConfig :=
  { name := "OpenAI", base_url := some "https://api.openai.com/v1",
    api_key_env := "OPENAI_API_KEY", model_pref := "openai/",
    description := "Direct OpenAI API access" }

/-- The `anthropic` entry of the `PROVIDERS` table. -/
def anthropicConfig : ProviderConfig :=
  { name := "Anthropic", base_url := none,
    api_key_env := "ANTHROPIC_API_KEY", model_pref := "anthropic/",
    description := "Direct Anthropic API access" }

/-- The `google` entry of the `PROVIDERS` table. -/
def googleConfig : ProviderConfig :=
  { name := "Google AI", base_url := none,
    api_key_env := "GOOGLE_API_KEY", model_pref := "google/",
    description := "Direct Google AI (Gemini) API access" }

/-- The `together` entry of the `PROVIDERS` table. -/
def togetherConfig : ProviderConfig :=
  { name := "Together AI", base_url := some "https://api.together.xyz/v1",
    api_key_env := "TOGETHER_API_KEY", model_pref := "openai/",
    description := "Together AI - fast open-source model inference" }

/-- The `fireworks` entry of the `PROVIDERS` table. -/
def fireworksConfig : ProviderConfig :=
  { name := "Fireworks AI", base_url := some "https://api.fireworks.ai/inference/v1",
    api_key_env := "FIREWORKS_API_KEY", model_pref := "openai/",
    description := "Fireworks AI - fast model inference" }

/-- The `PROVIDERS` table. -/
def PROVIDERS : List (String × ProviderConfig) :=
  [("openrouter", openrouterConfig),
   ("openai", openaiConfig),
   ("anthropic", anthropicConfig),
   ("google", googleConfig),
   ("together", togetherConfig),
   ("fireworks", fireworksConfig)]

/-- Python truthiness of an optional string. -/
def optStrTruthy : Option String → Bool
  | some s => s ≠ ""
  | none => false

/-- Stands for Python `str` applied to a float; the exact text is
immaterial to every claim (it only ever appears as a flag value). -/
def ratStr (q : ℚ) : String :=
  if q.den = 1 then q.num.repr else q.num.repr ++ "/" ++ q.den.repr

/-- The base of the built command: tool, task, model, limit, log
format, and for OpenAI-compatible providers other than `openai` the
base-URL override. -/
def inspectCmdBase (task_name model_id : String) (limit : Int) (provider : String)
    (pc : ProviderConfig) : List String :=
  if provider = "anthropic" then
    ["inspect", "eval", task_name, "--model", "anthropic/" ++ model_id,
     "--limit", limit.repr, "--log-format", "json"]
  else if provider = "google" then
    ["inspect", "eval", task_name, "--model", "google/" ++ model_id,
     "--limit", limit.repr, "--log-format", "json"]
  else
    ["inspect", "eval", task_name, "--model", pc.model_pref ++ model_id,
     "--limit", limit.repr, "--log-format", "json"]
    ++ (match pc.base_url with
        | some u => if u ≠ "" && provider ≠ "openai" then ["--model-base-url", u] else []
        | none => [])

/-- The reasoning/temperature flags of the built command: for reasoning
models a provider-specific reasoning-effort policy, otherwise the
temperature pass-through. -/
def reasoningTempPart (model_id provider : String) (temperature : Option ℚ)
    (reasoning_effort : Option String) : List String :=
  if is_reasoning_model model_id then
    if provider = "openrouter" && is_openai_reasoning model_id then
      ["--reasoning-effort", reasoning_effort.getD "none"]
    else if provider = "openrouter" then
      (if optStrTruthy reasoning_effort then
        ["--reasoning-effort", reasoning_effort.getD ""] else [])
    else if provider = "openai" then
      ["--reasoning-effort",
       if optStrTruthy reasoning_effort then reasoning_effort.getD "" else "medium",
       "--reasoning-summary", "auto"]
    else if provider = "anthropic" then []
    else if provider = "google" then []
    else
      (if optStrTruthy reasoning_effort then
        ["--reasoning-effort", reasoning_effort.getD ""] else [])
  else
    match temperature with
    | some t => ["--temperature", ratStr t]
    | none => []

/-- The seed flags of the built command: reproducible mode with a seed,
random shuffle without. -/
def seedPart : Option Int → List String
  | some s => ["--seed", s.repr, "--sample-shuffle", s.repr]
  | none => ["--sample-shuffle"]

/-- The token flags of the built command: the requested budget, or the
default 1024 when none was requested, for both `--max-tokens` and the
`-T max_non_cot_tokens` task argument. -/
def maxTokensTail (max_tokens : Option Int) : List String :=
  let emt := max_tokens.getD 1024
  ["--max-tokens", emt.repr, "-T", "max_non_cot_tokens=" ++ emt.repr]

/-- `build_inspect_command`: the full command line. -/
def build_inspect_command (task_name model_id : String) (limit : Int)
    (provider : String) (pc : ProviderConfig) (temperature : Option ℚ)
    (seed : Option Int) (max_tokens : Option Int)
    (reasoning_effort : Option String) : List String :=
  inspectCmdBase task_name model_id limit provider pc
    ++ reasoningTempPart model_id provider temperature reasoning_effort
    ++ seedPart seed
    ++ maxTokensTail max_tokens

example : is_reasoning_model "o3-mini" = true := by decide
example : is_reasoning_model "claude-3-7-sonnet" = true := by decide
example : is_reasoning_model "deepseek-r1" = true := by decide
example : is_reasoning_model "gpt-4o" = false := by decide
example : is_openai_reasoning "deepseek-r1" = false := by decide
example :
    build_inspect_command "inspect_evals/mmlu_0_shot" "gpt-4o" 10 "openrouter"
      ((List.lookup "openrouter" PROVIDERS).getD default) none none (some 5) none =
    ["inspect", "eval", "inspect_evals/mmlu_0_shot", "--model", "openai/gpt-4o",
     "--limit", "10", "--log-format", "json",
     "--model-base-url", "https://openrouter.ai/api/v1",
     "--sample-shuffle", "--max-tokens", "5", "-T", "max_non_cot_tokens=5"] := by decide

/-- The `SUPPORTED_BENCHMARKS` table: benchmark id → inspect-evals task. -/
def SUPPORTED_BENCHMARKS : List (String × String) :=
  [("apps", "inspect_evals/apps"),
   ("agent_bench", "inspect_evals/agent_bench"),
   ("bigcodebench", "inspect_evals/bigcodebench"),
   ("core_bench", "inspect_evals/core_bench"),
   ("class_eval", "inspect_evals/class_eval"),
   ("ds1000", "inspect_evals/ds1000"),
   ("humaneval", "inspect_evals/humaneval"),
   ("mbpp", "inspect_evals/mbpp"),
   ("mle_bench", "inspect_evals/mle_bench"),
   ("mle_bench_lite", "inspect_evals/mle_bench_lite"),
   ("paperbench", "inspect_evals/paperbench"),
   ("swe_bench", "inspect_evals/swe_bench"),
   ("swe_bench_verified", "inspect_evals/swe_bench_verified"),
   ("scicode", "inspect_evals/scicode"),
   ("usaco", "inspect_evals/usaco"),
   ("assistant_bench", "inspect_evals/assistant_bench"),
   ("assistant_bench_closed", "inspect_evals/assistant_bench_closed_book"),
   ("assistant_bench_web", "inspect_evals/assistant_bench_web_search"),
   ("bfcl", "inspect_evals/bfcl"),
   ("browse_comp", "inspect_evals/browse_comp"),
   ("gaia", "inspect_evals/gaia"),
   ("gaia_level1", "inspect_evals/gaia_level1"),
   ("gaia_level2", "inspect_evals/gaia_level2"),
   ("gaia_level3", "inspect_evals/gaia_level3"),
   ("gdpval", "inspect_evals/gdpval"),
   ("mind2web", "inspect_evals/mind2web"),
   ("osworld", "inspect_evals/osworld"),
   ("osworld_small", "inspect_evals/osworld_small"),
   ("sycophancy", "inspect_evals/sycophancy"),
   ("cve_bench", "inspect_evals/cve_bench"),
   ("cyberseceval_3", "inspect_evals/cyberseceval_3"),
   ("cyberseceval_2", "inspect_evals/cyberseceval_2"),
   ("threecb", "inspect_evals/threecb"),
   ("cybench", "inspect_evals/cybench"),
   ("cybermetric", "inspect_evals/cybermetric"),
   ("gdm_intercode_ctf", "inspect_evals/gdm_intercode_ctf"),
   ("gdm_in_house_ctf", "inspect_evals/gdm_in_house_ctf"),
   ("sevenllm", "inspect_evals/sevenllm"),
   ("sandboxbench", "inspect_evals/sandboxbench"),
   ("sec_qa", "inspect_evals/sec_qa"),
   ("ahb", "inspect_evals/ahb"),
   ("abstention_bench", "inspect_evals/abstention_bench"),
   ("agentdojo", "inspect_evals/agentdojo"),
   ("agentharm", "inspect_evals/agentharm"),
   ("fortress", "inspect_evals/fortress"),
   ("lab_bench", "inspect_evals/lab_bench"),
   ("mask", "inspect_evals/mask"),
   ("make_me_pay", "inspect_evals/make_me_pay"),
   ("makemesay", "inspect_evals/makemesay"),
   ("mind2web_sc", "inspect_evals/mind2web_sc"),
   ("stereoset", "inspect_evals/stereoset"),
   ("strong_reject", "inspect_evals/strong_reject"),
   ("coconot", "inspect_evals/coconot"),
   ("wmdp", "inspect_evals/wmdp"),
   ("b3", "inspect_evals/b3"),
   ("toxigen", "inspect_evals/toxigen"),
   ("xstest", "inspect_evals/xstest"),
   ("aime2024", "inspect_evals/aime2024"),
   ("aime2025", "inspect_evals/aime2025"),
   ("gsm8k", "inspect_evals/gsm8k"),
   ("math", "inspect_evals/math"),
   ("mgsm", "inspect_evals/mgsm"),
   ("mathvista", "inspect_evals/mathvista"),
   ("arc", "inspect_evals/arc_challenge"),
   ("bbh", "inspect_evals/bbh"),
   ("bbeh", "inspect_evals/bbeh"),
   ("boolq", "inspect_evals/boolq"),
   ("drop", "inspect_evals/drop"),
   ("hellaswag", "inspect_evals/hellaswag"),
   ("ifeval", "inspect_evals/ifeval"),
   ("lingoly", "inspect_evals/lingoly"),
   ("mmmu", "inspect_evals/mmmu"),
   ("musr", "inspect_evals/musr"),
   ("niah", "inspect_evals/niah"),
   ("novelty_bench", "inspect_evals/novelty_bench"),
   ("paws", "inspect_evals/paws"),
   ("piqa", "inspect_evals/piqa"),
   ("race_h", "inspect_evals/race_h"),
   ("squad", "inspect_evals/squad"),
   ("vimgolf", "inspect_evals/vimgolf"),
   ("winogrande", "inspect_evals/winogrande"),
   ("worldsense", "inspect_evals/worldsense"),
   ("infinite_bench", "inspect_evals/infinite_bench"),
   ("agieval", "inspect_evals/agieval"),
   ("air_bench", "inspect_evals/air_bench"),
   ("chembench", "inspect_evals/chembench"),
   ("commonsense_qa", "inspect_evals/commonsense_qa"),
   ("gpqa", "inspect_evals/gpqa"),
   ("gpqa_diamond", "inspect_evals/gpqa_diamond"),
   ("healthbench", "inspect_evals/healthbench"),
   ("hle", "inspect_evals/hle"),
   ("livebench", "inspect_evals/livebench"),
   ("mmlu_pro", "inspect_evals/mmlu_pro"),
   ("mmlu", "inspect_evals/mmlu_0_shot"),
   ("mmlu_5_shot", "inspect_evals/mmlu_5_shot"),
   ("medqa", "inspect_evals/medqa"),
   ("onet", "inspect_evals/onet"),
   ("pre_flight", "inspect_evals/pre_flight"),
   ("pubmedqa", "inspect_evals/pubmedqa"),
   ("sosbench", "inspect_evals/sosbench"),
   ("sciknoweval", "inspect_evals/sciknoweval"),
   ("simpleqa", "inspect_evals/simpleqa"),
   ("truthfulqa", "inspect_evals/truthfulqa"),
   ("uccb", "inspect_evals/uccb"),
   ("agentic_misalignment", "inspect_evals/agentic_misalignment"),
   ("gdm_sp_apps", "inspect_evals/gdm_sp_apps"),
   ("gdm_sr_self_reasoning", "inspect_evals/gdm_sr_self_reasoning"),
   ("gdm_stealth", "inspect_evals/gdm_stealth"),
   ("docvqa", "inspect_evals/docvqa"),
   ("mmiu", "inspect_evals/mmiu"),
   ("vstar_bench", "inspect_evals/vstar_bench"),
   ("zerobench", "inspect_evals/zerobench"),
   ("bbq", "inspect_evals/bbq"),
   ("bold", "inspect_evals/bold"),
   ("personality_bfi", "inspect_evals/personality_bfi"),
   ("personality_trait", "inspect_evals/personality_trait"),
   ("personality_prime", "inspect_evals/personality_prime"),
   ("writingbench", "inspect_evals/writingbench")]
theorem toDigitsCore_chars (fuel : Nat) :
    ∀ (n : Nat) (ds : List Char),
      (∀ c ∈ ds, ∃ m, m < 10 ∧ c = Nat.digitChar m) →
      ∀ c ∈ Nat.toDigitsCore 10 fuel n ds, ∃ m, m < 10 ∧ c = Nat.digitChar m := by
  induction fuel with
  | zero => intro n ds hds c hc; exact hds c (by simpa [Nat.toDigitsCore] using hc)
  | succ fuel ih =>
    intro n ds hds c hc
    simp only [Nat.toDigitsCore] at hc
    by_cases h : n / 10 = 0
    · rw [if_pos h] at hc
      rcases List.mem_cons.mp hc with rfl | hmem
      · exact ⟨n % 10, Nat.mod_lt _ (by norm_num), rfl⟩
      · exact hds c hmem
    · rw [if_neg h] at hc
      refine ih (n / 10) (Nat.digitChar (n % 10) :: ds) ?_ c hc
      intro c' hc'
      rcases List.mem_cons.mp hc' with rfl | h'
      · exact ⟨n % 10, Nat.mod_lt _ (by norm_num), rfl⟩
      · exact hds c' h'

theorem toDigitsCore_ne_nil_of_ne_nil (fuel : Nat) :
    ∀ (n : Nat) (ds : List Char), ds ≠ [] → Nat.toDigitsCore 10 fuel n ds ≠ [] := by
  induction fuel with
  | zero => intro n ds h; simpa [Nat.toDigitsCore] using h
  | succ fuel ih =>
    intro n ds h
    simp only [Nat.toDigitsCore]
    by_cases hz : n / 10 = 0
    · rw [if_pos hz]; simp
    · rw [if_neg hz]; exact ih _ _ (by simp)

theorem natRepr_data_head (n : Nat) :
    ∃ m, m < 10 ∧ (Nat.repr n).data.head? = some (Nat.digitChar m) := by
  have hne : Nat.toDigits 10 n ≠ [] := by
    simp only [Nat.toDigits, Nat.toDigitsCore]
    by_cases hz : n / 10 = 0
    · rw [if_pos hz]; simp
    · rw [if_neg hz]; exact toDigitsCore_ne_nil_of_ne_nil _ _ _ (by simp)
  have hdata : (Nat.repr n).data = Nat.toDigits 10 n := rfl
  rcases hl : Nat.toDigits 10 n with _ | ⟨c, t⟩
  · exact absurd hl hne
  · have hc : c ∈ Nat.toDigits 10 n := by rw [hl]; exact List.mem_cons_self c t
    obtain ⟨m, hm, hcm⟩ := toDigitsCore_chars (n + 1) n [] (by simp) c hc
    exact ⟨m, hm, by rw [hdata, hl, hcm]; rfl⟩

theorem digitChar_ne_dash (m : Nat) (h : m < 10) : Nat.digitChar m ≠ '-' := by
  interval_cases m <;> decide

theorem natRepr_ne_dashHead (n : Nat) (s : String) (hs : s.data.head? = some '-') :
    Nat.repr n ≠ s := by
  obtain ⟨m, hm, hh⟩ := natRepr_data_head n
  intro h
  rw [h, hs] at hh
  exact digitChar_ne_dash m hm (Option.some.inj hh).symm

theorem str_data_append (a b : String) : (a ++ b).data = a.data ++ b.data := by
  cases a; cases b; rfl

theorem intRepr_ne_doubleDash (i : Int) (s : String)
    (h1 : s.data.head? = some '-') (h2 : s.data.tail.head? = some '-') :
    Int.repr i ≠ s := by
  cases i with
  | ofNat m => exact natRepr_ne_dashHead m s h1
  | negSucc m =>
    intro h
    obtain ⟨k, hk, hh⟩ := natRepr_data_head (m + 1)
    have hdata : (Int.repr (Int.negSucc m)).data = '-' :: (Nat.repr (m + 1)).data := by
      show (("-" : String) ++ Nat.repr (m + 1)).data = _
      rw [str_data_append]; rfl
    rw [h] at hdata
    have : s.data.tail = (Nat.repr (m + 1)).data := by rw [hdata]; rfl
    rw [this, hh] at h2
    exact digitChar_ne_dash k hk (Option.some.inj h2)

theorem append_ne_of_head_ne (p m s : String) (c : Char)
    (hp : p.data.head? = some c) (hs : s.data.head? ≠ some c) : p ++ m ≠ s := by
  intro h
  apply hs
  rw [← h, str_data_append]
  cases hd : p.data with
  | nil => rw [hd] at hp; simp at hp
  | cons a t => rw [hd] at hp; simp at hp; simp [hp]

example : Nat.repr 137 = "137" := by decide

theorem bench_task_ne_flags :
    ∀ p ∈ SUPPORTED_BENCHMARKS, p.2 ≠ "--temperature" ∧ p.2 ≠ "--reasoning-effort" := by
  decide

theorem flag_not_mem_std9 (f task model pm : String) (c : Char) (limit : Int)
    (hlit : ∀ x ∈ (["inspect", "eval", "--model", "--limit", "--log-format",
      "json"] : List String), f ≠ x)
    (htask : task ≠ f)
    (hpm : pm.data.head? = some c)
    (hc : f.data.head? ≠ some c)
    (hdash1 : f.data.head? = some '-') (hdash2 : f.data.tail.head? = some '-') :
    f ∉ ["inspect", "eval", task, "--model", pm ++ model, "--limit", limit.repr,
         "--log-format", "json"] := by
  intro hm
  simp only [List.mem_cons, List.not_mem_nil, or_false] at hm
  rcases hm with h | h | h | h | h | h | h | h | h
  · exact hlit _ (by decide) h
  · exact hlit _ (by decide) h
  · exact htask h.symm
  · exact hlit _ (by decide) h
  · exact append_ne_of_head_ne pm model f c hpm hc h.symm
  · exact hlit _ (by decide) h
  · exact intRepr_ne_doubleDash limit f hdash1 hdash2 h.symm
  · exact hlit _ (by decide) h
  · exact hlit _ (by decide) h

theorem flag_not_mem_std11 (f task model pm u : String) (c : Char) (limit : Int)
    (hlit : ∀ x ∈ (["inspect", "eval", "--model", "--limit", "--log-format", "json",
      "--model-base-url"] : List String), f ≠ x)
    (htask : task ≠ f)
    (hpm : pm.data.head? = some c) (hc : f.data.head? ≠ some c)
    (hdash1 : f.data.head? = some '-') (hdash2 : f.data.tail.head? = some '-')
    (hu : u.data.head? = some 'h') (hch : f.data.head? ≠ some 'h') :
    f ∉ ["inspect", "eval", task, "--model", pm ++ model, "--limit", limit.repr,
         "--log-format", "json", "--model-base-url", u] := by
  intro hm
  simp only [List.mem_cons, List.not_mem_nil, or_false] at hm
  rcases hm with h | h | h | h | h | h | h | h | h | h | h
  · exact hlit _ (by decide) h
  · exact hlit _ (by decide) h
  · exact htask h.symm
  · exact hlit _ (by decide) h
  · exact append_ne_of_head_ne pm model f c hpm hc h.symm
  · exact hlit _ (by decide) h
  · exact intRepr_ne_doubleDash limit f hdash1 hdash2 h.symm
  · exact hlit _ (by decide) h
  · exact hlit _ (by decide) h
  · exact hlit _ (by decide) h
  · exact hch (by rw [h, hu])

theorem not_mem_append4 {α : Type} {a b c d : List α} {x : α}
    (ha : x ∉ a) (hb : x ∉ b) (hc : x ∉ c) (hd : x ∉ d) :
    x ∉ a ++ b ++ c ++ d := by
  intro h
  rcases List.mem_append.mp h with h | h
  · rcases List.mem_append.mp h with h | h
    · rcases List.mem_append.mp h with h | h
      exacts [ha h, hb h]
    · exact hc h
  · exact hd h

theorem temp_not_mem_seedPart (seed : Option Int) :
    "--temperature" ∉ seedPart seed := by
  cases seed with
  | none => decide
  | some s =>
    intro h
    simp only [seedPart, List.mem_cons, List.not_mem_nil, or_false] at h
    rcases h with h | h | h | h
    · exact absurd h (by decide)
    · exact intRepr_ne_doubleDash s _ (by decide) (by decide) h.symm
    · exact absurd h (by decide)
    · exact intRepr_ne_doubleDash s _ (by decide) (by decide) h.symm

theorem reff_not_mem_seedPart (seed : Option Int) :
    "--reasoning-effort" ∉ seedPart seed := by
  cases seed with
  | none => decide
  | some s =>
    intro h
    simp only [seedPart, List.mem_cons, List.not_mem_nil, or_false] at h
    rcases h with h | h | h | h
    · exact absurd h (by decide)
    · exact intRepr_ne_doubleDash s _ (by decide) (by decide) h.symm
    · exact absurd h (by decide)
    · exact intRepr_ne_doubleDash s _ (by decide) (by decide) h.symm

theorem temp_not_mem_tail (mt : Option Int) :
    "--temperature" ∉ maxTokensTail mt := by
  intro h
  simp only [maxTokensTail, List.mem_cons, List.not_mem_nil, or_false] at h
  rcases h with h | h | h | h
  · exact absurd h (by decide)
  · exact intRepr_ne_doubleDash (mt.getD 1024) _ (by decide) (by decide) h.symm
  · exact absurd h (by decide)
  · exact append_ne_of_head_ne "max_non_cot_tokens=" (mt.getD 1024).repr _ 'm'
      (by decide) (by decide) h.symm

theorem reff_not_mem_tail (mt : Option Int) :
    "--reasoning-effort" ∉ maxTokensTail mt := by
  intro h
  simp only [maxTokensTail, List.mem_cons, List.not_mem_nil, or_false] at h
  rcases h with h | h | h | h
  · exact absurd h (by decide)
  · exact intRepr_ne_doubleDash (mt.getD 1024) _ (by decide) (by decide) h.symm
  · exact absurd h (by decide)
  · exact append_ne_of_head_ne "max_non_cot_tokens=" (mt.getD 1024).repr _ 'm'
      (by decide) (by decide) h.symm

theorem rp_openai (model : String) (temperature : Option ℚ)
    (hr : is_reasoning_model model = true) :
    reasoningTempPart model "openai" temperature none =
      ["--reasoning-effort", "medium", "--reasoning-summary", "auto"] := by
  unfold reasoningTempPart
  rw [hr]
  rfl

theorem rp_openrouter_oai (model : String) (temperature : Option ℚ)
    (hr : is_reasoning_model model = true) (hoai : is_openai_reasoning model = true) :
    reasoningTempPart model "openrouter" temperature none =
      ["--reasoning-effort", "none"] := by
  unfold reasoningTempPart
  rw [hr, hoai]
  rfl

theorem rp_openrouter_other (model : String) (temperature : Option ℚ)
    (hr : is_reasoning_model model = true) (hoai : is_openai_reasoning model = false) :
    reasoningTempPart model "openrouter" temperature none = [] := by
  unfold reasoningTempPart
  rw [hr, hoai]
  rfl

theorem rp_anthropic (model : String) (temperature : Option ℚ)
    (hr : is_reasoning_model model = true) :
    reasoningTempPart model "anthropic" temperature none = [] := by
  unfold reasoningTempPart
  rw [hr]
  rfl

theorem rp_google (model : String) (temperature : Option ℚ)
    (hr : is_reasoning_model model = true) :
    reasoningTempPart model "google" temperature none = [] := by
  unfold reasoningTempPart
  rw [hr]
  rfl

theorem rp_together (model : String) (temperature : Option ℚ)
    (hr : is_reasoning_model model = true) :
    reasoningTempPart model "together" temperature none = [] := by
  unfold reasoningTempPart
  rw [hr]
  rfl

theorem rp_fireworks (model : String) (temperature : Option ℚ)
    (hr : is_reasoning_model model = true) :
    reasoningTempPart model "fireworks" temperature none = [] := by
  unfold reasoningTempPart
  rw [hr]
  rfl

/-- C1 (amended): for every reasoning model and every provider of the
table, the built command (with the runner's default of no explicit
reasoning effort) omits `--temperature`; it carries
`--reasoning-effort medium` plus `--reasoning-summary auto` for direct
openai, and `--reasoning-effort none` for an OpenAI-pattern reasoning
model via openrouter; for every other provider/model combination no
`--reasoning-effort` flag is emitted. -/
theorem C1_reasoning_command_flags
    (benchmark task model : String) (limit : Int) (provider : String)
    (pc : ProviderConfig) (temperature : Option ℚ) (seed max_tokens : Option Int)
    (hb : (benchmark, task) ∈ SUPPORTED_BENCHMARKS)
    (hpc : (provider, pc) ∈ PROVIDERS)
    (hr : is_reasoning_model model = true) :
    "--temperature" ∉ build_inspect_command task model limit provider pc
        temperature seed max_tokens none
    ∧ (provider = "openai" →
        ∃ a b, build_inspect_command task model limit provider pc temperature seed
            max_tokens none
          = a ++ ["--reasoning-effort", "medium", "--reasoning-summary", "auto"] ++ b)
    ∧ (provider = "openrouter" → is_openai_reasoning model = true →
        ∃ a b, build_inspect_command task model limit provider pc temperature seed
            max_tokens none
          = a ++ ["--reasoning-effort", "none"] ++ b)
    ∧ (provider ≠ "openai" → ¬(provider = "openrouter" ∧ is_openai_reasoning model = true) →
        "--reasoning-effort" ∉ build_inspect_command task model limit provider pc
          temperature seed max_tokens none) := by
  obtain ⟨ht1, ht2⟩ := bench_task_ne_flags (benchmark, task) hb
  simp only [PROVIDERS, List.mem_cons, List.not_mem_nil, or_false, Prod.mk.injEq] at hpc
  have hsp := temp_not_mem_seedPart seed
  have htl := temp_not_mem_tail max_tokens
  have hsp2 := reff_not_mem_seedPart seed
  have htl2 := reff_not_mem_tail max_tokens
  rcases hpc with ⟨rfl, rfl⟩ | ⟨rfl, rfl⟩ | ⟨rfl, rfl⟩ | ⟨rfl, rfl⟩ | ⟨rfl, rfl⟩ | ⟨rfl, rfl⟩
  · -- openrouter
    have hbase : inspectCmdBase task model limit "openrouter" openrouterConfig =
        ["inspect", "eval", task, "--model", "openai/" ++ model, "--limit", limit.repr,
         "--log-format", "json", "--model-base-url", "https://openrouter.ai/api/v1"] := rfl
    cases hoai : is_openai_reasoning model with
    | true =>
      refine ⟨?_, fun h => absurd h (by decide), ?_, ?_⟩
      · exact not_mem_append4
          (by rw [hbase]
              exact flag_not_mem_std11 "--temperature" task model "openai/"
                "https://openrouter.ai/api/v1" 'o' limit (by decide) ht1 (by decide)
                (by decide) (by decide) (by decide) (by decide) (by decide))
          (by rw [rp_openrouter_oai model temperature hr hoai]; decide) hsp htl
      · intro _ _
        refine ⟨inspectCmdBase task model limit "openrouter" openrouterConfig,
                seedPart seed ++ maxTokensTail max_tokens, ?_⟩
        unfold build_inspect_command
        rw [rp_openrouter_oai model temperature hr hoai]
        simp [List.append_assoc]
      · intro _ h2
        exact absurd ⟨rfl, rfl⟩ h2
    | false =>
      refine ⟨?_, fun h => absurd h (by decide), ?_, ?_⟩
      · exact not_mem_append4
          (by rw [hbase]
              exact flag_not_mem_std11 "--temperature" task model "openai/"
                "https://openrouter.ai/api/v1" 'o' limit (by decide) ht1 (by decide)
                (by decide) (by decide) (by decide) (by decide) (by decide))
          (by rw [rp_openrouter_other model temperature hr hoai]
              exact List.not_mem_nil _) hsp htl
      · intro _ h
        exact absurd h (by simp [hoai])
      · intro _ _
        exact not_mem_append4
          (by rw [hbase]
              exact flag_not_mem_std11 "--reasoning-effort" task model "openai/"
                "https://openrouter.ai/api/v1" 'o' limit (by decide) ht2 (by decide)
                (by decide) (by decide) (by decide) (by decide) (by decide))
          (by rw [rp_openrouter_other model temperature hr hoai]
              exact List.not_mem_nil _) hsp2 htl2
  · -- openai
    have hbase : inspectCmdBase task model limit "openai" openaiConfig =
        ["inspect", "eval", task, "--model", "openai/" ++ model, "--limit", limit.repr,
         "--log-format", "json"] := rfl
    refine ⟨?_, ?_, fun h => absurd h (by decide), fun h => absurd rfl h⟩
    · exact not_mem_append4
        (by rw [hbase]
            exact flag_not_mem_std9 "--temperature" task model "openai/" 'o' limit
              (by decide) ht1 (by decide) (by decide) (by decide) (by decide))
        (by rw [rp_openai model temperature hr]; decide) hsp htl
    · intro _
      refine ⟨inspectCmdBase task model limit "openai" openaiConfig,
              seedPart seed ++ maxTokensTail max_tokens, ?_⟩
      unfold build_inspect_command
      rw [rp_openai model temperature hr]
      simp [List.append_assoc]
  · -- anthropic
    have hbase : inspectCmdBase task model limit "anthropic" anthropicConfig =
        ["inspect", "eval", task, "--model", "anthropic/" ++ model, "--limit", limit.repr,
         "--log-format", "json"] := rfl
    refine ⟨?_, fun h => absurd h (by decide), fun h => absurd h (by decide), ?_⟩
    · exact not_mem_append4
        (by rw [hbase]
            exact flag_not_mem_std9 "--temperature" task model "anthropic/" 'a' limit
              (by decide) ht1 (by decide) (by decide) (by decide) (by decide))
        (by rw [rp_anthropic model temperature hr]; exact List.not_mem_nil _) hsp htl
    · intro _ _
      exact not_mem_append4
        (by rw [hbase]
            exact flag_not_mem_std9 "--reasoning-effort" task model "anthropic/" 'a' limit
              (by decide) ht2 (by decide) (by decide) (by decide) (by decide))
        (by rw [rp_anthropic model temperature hr]; exact List.not_mem_nil _) hsp2 htl2
  · -- google
    have hbase : inspectCmdBase task model limit "google" googleConfig =
        ["inspect", "eval", task, "--model", "google/" ++ model, "--limit", limit.repr,
         "--log-format", "json"] := rfl
    refine ⟨?_, fun h => absurd h (by decide), fun h => absurd h (by decide), ?_⟩
    · exact not_mem_append4
        (by rw [hbase]
            exact flag_not_mem_std9 "--temperature" task model "google/" 'g' limit
              (by decide) ht1 (by decide) (by decide) (by decide) (by decide))
        (by rw [rp_google model temperature hr]; exact List.not_mem_nil _) hsp htl
    · intro _ _
      exact not_mem_append4
        (by rw [hbase]
            exact flag_not_mem_std9 "--reasoning-effort" task model "google/" 'g' limit
              (by decide) ht2 (by decide) (by decide) (by decide) (by decide))
        (by rw [rp_google model temperature hr]; exact List.not_mem_nil _) hsp2 htl2
  · -- together
    have hbase : inspectCmdBase task model limit "together" togetherConfig =
        ["inspect", "eval", task, "--model", "openai/" ++ model, "--limit", limit.repr,
         "--log-format", "json", "--model-base-url", "https://api.together.xyz/v1"] := rfl
    refine ⟨?_, fun h => absurd h (by decide), fun h => absurd h (by decide), ?_⟩
    · exact not_mem_append4
        (by rw [hbase]
            exact flag_not_mem_std11 "--temperature" task model "openai/"
              "https://api.together.xyz/v1" 'o' limit (by decide) ht1 (by decide)
              (by decide) (by decide) (by decide) (by decide) (by decide))
        (by rw [rp_together model temperature hr]; exact List.not_mem_nil _) hsp htl
    · intro _ _
      exact not_mem_append4
        (by rw [hbase]
            exact flag_not_mem_std11 "--reasoning-effort" task model "openai/"
              "https://api.together.xyz/v1" 'o' limit (by decide) ht2 (by decide)
              (by decide) (by decide) (by decide) (by decide) (by decide))
        (by rw [rp_together model temperature hr]; exact List.not_mem_nil _) hsp2 htl2
  · -- fireworks
    have hbase : inspectCmdBase task model limit "fireworks" fireworksConfig =
        ["inspect", "eval", task, "--model", "openai/" ++ model, "--limit", limit.repr,
         "--log-format", "json", "--model-base-url",
         "https://api.fireworks.ai/inference/v1"] := rfl
    refine ⟨?_, fun h => absurd h (by decide), fun h => absurd h (by decide), ?_⟩
    · exact not_mem_append4
        (by rw [hbase]
            exact flag_not_mem_std11 "--temperature" task model "openai/"
              "https://api.fireworks.ai/inference/v1" 'o' limit (by decide) ht1 (by decide)
              (by decide) (by decide) (by decide) (by decide) (by decide))
        (by rw [rp_fireworks model temperature hr]; exact List.not_mem_nil _) hsp htl
    · intro _ _
      exact not_mem_append4
        (by rw [hbase]
            exact flag_not_mem_std11 "--reasoning-effort" task model "openai/"
              "https://api.fireworks.ai/inference/v1" 'o' limit (by decide) ht2 (by decide)
              (by decide) (by decide) (by decide) (by decide) (by decide))
        (by rw [rp_fireworks model temperature hr]; exact List.not_mem_nil _) hsp2 htl2

theorem C1_reasoning_command_flags_witness :
    "--temperature" ∉ build_inspect_command "inspect_evals/gpqa" "o3-mini" 10 "openai"
        openaiConfig (some (7/10)) none none none
    ∧ (∃ a b, build_inspect_command "inspect_evals/gpqa" "o3-mini" 10 "openai" openaiConfig
        (some (7/10)) none none none
        = a ++ ["--reasoning-effort", "medium", "--reasoning-summary", "auto"] ++ b) := by
  have h := C1_reasoning_command_flags "gpqa" "inspect_evals/gpqa" "o3-mini" 10 "openai"
    openaiConfig (some (7/10)) none none (by decide) (by decide) (by decide)
  exact ⟨h.1, h.2.1 rfl⟩

/-- C1 counterexample: `deepseek-r1` matches a reasoning pattern, yet via
openrouter (with no explicit effort, as in every call of the runner) the
built command contains no `--reasoning-effort` flag at all. -/
theorem C1_counterexample :
    is_reasoning_model "deepseek-r1" = true ∧
    "--reasoning-effort" ∉ build_inspect_command "inspect_evals/gpqa" "deepseek-r1" 10
      "openrouter" openrouterConfig none none none none := by decide

/-- C9 (amended): the builder always ends the command with
`--max-tokens` and `-T max_non_cot_tokens=` carrying the requested
budget, defaulting to 1024 only when no budget was requested; an
explicitly requested value is emitted unchanged, even below 1024. -/
theorem C9_max_tokens_policy (task model : String) (limit : Int) (provider : String)
    (pc : ProviderConfig) (temperature : Option ℚ) (seed : Option Int)
    (max_tokens : Option Int) (reasoning_effort : Option String) :
    ∃ a, build_inspect_command task model limit provider pc temperature seed max_tokens
        reasoning_effort
      = a ++ ["--max-tokens", (max_tokens.getD 1024).repr, "-T",
              "max_non_cot_tokens=" ++ (max_tokens.getD 1024).repr] := by
  refine ⟨inspectCmdBase task model limit provider pc
    ++ reasoningTempPart model provider temperature reasoning_effort
    ++ seedPart seed, ?_⟩
  unfold build_inspect_command maxTokensTail
  simp [List.append_assoc]

/-- C9 counterexample: an explicitly requested budget of 5 is emitted
unchanged for both flags, below the minimum default of 1024 that the
claim asserts as a floor for every request. -/
theorem C9_counterexample :
    build_inspect_command "inspect_evals/mmlu_0_shot" "gpt-4o" 10 "openrouter"
      openrouterConfig none none (some 5) none =
    ["inspect", "eval", "inspect_evals/mmlu_0_shot", "--model", "openai/gpt-4o",
     "--limit", "10", "--log-format", "json",
     "--model-base-url", "https://openrouter.ai/api/v1",
     "--sample-shuffle", "--max-tokens", "5", "-T", "max_non_cot_tokens=5"] := by decide

/-- C2: for a sample carrying a choice score whose raw response text
yields the answer B under the source's answer pattern and whose target
field is B, the correctness decision is true for every possible content
of the scorer's value field (and of its explanation and answer fields). -/
theorem C2_raw_text_overrides_scorer (t comp : String) (cs : ChoiceScore)
    (old : Option Int) (hm : Bool) (ulm ul : ℚ) (ca co : Option ℚ)
    (h : findAnswerS t = some 'B') :
    is_sample_correct
      { choices := [MessageContent.str t], completion := comp,
        scoresChoice := some cs, target := "B", oldScoreValue := old,
        hasModelUsage := hm, usageLatencyMs := ulm, usageLatency := ul,
        createdAt := ca, completedAt := co } = true := by
  unfold is_sample_correct extract_predicted extract_expected
  simp only [List.head?_cons, h]
  rfl

theorem C2_witness :
    findAnswerS "The answer is clear. Answer: B" = some 'B' ∧
    is_sample_correct
      { choices := [MessageContent.str "The answer is clear. Answer: B"],
        scoresChoice := some { explanation := "", value := "A", answer := "" },
        target := "B" } = true :=
  ⟨by decide,
   C2_raw_text_overrides_scorer "The answer is clear. Answer: B" ""
     { explanation := "", value := "A", answer := "" } none false 0 0 none none
     (by decide)⟩

/-- C3 counterexample: a legacy-format sample carrying `score.value = 1`
but no choice score has no extractable predicted answer anywhere in the
fallback chain, yet the correctness decision returns true. -/
theorem C3_counterexample :
    extract_predicted { oldScoreValue := some 1 } = "" ∧
    is_sample_correct { oldScoreValue := some 1 } = true := by decide

/-- C3 (amended): for every sample scored by the choice scorer, if no
predicted answer can be extracted at any stage of the fallback chain
(the chain returns the empty string), the correctness decision is
false; both functions are total by construction.  A sample without a
choice score instead uses the legacy `score.value == 1` check. -/
theorem C3_no_extraction_false (s : Sample) (hc : s.scoresChoice.isSome = true)
    (he : extract_predicted s = "") :
    is_sample_correct s = false := by
  unfold is_sample_correct
  cases hsc : s.scoresChoice with
  | none => rw [hsc] at hc; simp at hc
  | some cs =>
    simp only [he]
    rfl

theorem C3_no_extraction_false_witness :
    extract_predicted
      { scoresChoice := some ({ value := "7" } : ChoiceScore),
        choices := [MessageContent.str "no final letter"] } = "" ∧
    is_sample_correct
      { scoresChoice := some ({ value := "7" } : ChoiceScore),
        choices := [MessageContent.str "no final letter"] } = false :=
  ⟨by decide, C3_no_extraction_false _ (by decide) (by decide)⟩

/-- Python `s[:n]` on the character data of a string. -/
def strTake (s : String) (n : Nat) : String :=
  String.mk (s.data.take n)

/-- Resolve one path component as `os.path.normpath` does: empty and
dot components are dropped; a dot-dot component removes the last kept
component (none at the root). -/
def resolve1 (acc : List String) (c : String) : List String :=
  if c = "" || c = "." then acc
  else if c = ".." then acc.dropLast
  else acc ++ [c]

/-- Resolve a component sequence left to right. -/
def resolveComps (cs : List String) : List String :=
  cs.foldl resolve1 []

/-- Split a path string into components at slashes. -/
def splitCompsAux : List Char → List Char → List String
  | [], acc => [String.mk acc.reverse]
  | '/' :: rest, acc => String.mk acc.reverse :: splitCompsAux rest []
  | c :: rest, acc => splitCompsAux rest (acc.cons c)

/-- Components of a path string. -/
def splitComps (p : String) : List String :=
  splitCompsAux p.data []

/-- Join resolved components into an absolute path string. -/
def joinAbs (cs : List String) : String :=
  if cs = [] then "/" else cs.foldl (fun a c => a ++ "/" ++ c) ""

/-- `os.path.abspath` on components: an absolute path is resolved as
given, a relative one against the working directory `cwd` (the
component list of an absolute, already-normalized directory). -/
def abspathComps (cwd : List String) (p : String) : List String :=
  if p.data.head? = some '/' then resolveComps (splitComps p)
  else resolveComps (cwd ++ splitComps p)

/-- `os.path.abspath` as a string. -/
def pyAbspath (cwd : List String) (p : String) : String :=
  joinAbs (abspathComps cwd p)

/-- The traversal guard of `parse_log_results`: the resolved path must
start with the resolved logs directory plus a separator, or equal it. -/
def logPathAllowed (cwd : List String) (log_path : String) : Bool :=
  let logs_dir := pyAbspath cwd "logs"
  let resolved := pyAbspath cwd log_path
  (logs_dir ++ "/").data.isPrefixOf resolved.data || resolved = logs_dir

/-- Parsed content of a log artifact (the runner only reads the sample
list and the status/results header). -/
structure LogData where
  status : String := "success"
  samples : List Sample := []
  deriving DecidableEq, Inhabited

/-- `parse_log_results`: the traversal guard runs before any file
access; everything behind it (opening the file, ZIP or JSON parsing,
with exceptions folded to `None`) is the filesystem oracle `fs`. -/
def parse_log_results (cwd : List String) (fs : String → Option LogData)
    (log_path : String) : Option LogData :=
  if logPathAllowed cwd log_path then fs log_path else none

/-- The payload of a result event (`create_result`; the camel/snake
aliases of the wire format carry the same values and are embedded
once). -/
structure ResultData where
  question : Nat
  total : Nat
  correct : Bool
  running_score : ℚ
  latency_ms : ℚ
  predicted : String
  expected : String
  epoch : Nat
  deriving DecidableEq

/-- One epoch's aggregate, the `epoch_result` dict of the runner. -/
structure EpochResult where
  epoch : Nat
  score : ℚ
  correct : Int
  total : Int
  deriving DecidableEq, Inhabited

/-- The payload of a complete event (`create_complete` with the extras
the runner passes; the wall-clock duration and timestamp fields are
outside the embedding). -/
structure CompleteData where
  score : ℚ
  correct : Int
  total : Int
  model : String
  benchmark : String
  provider : String
  provider_name : String
  min_score : Option ℚ := none
  max_score : Option ℚ := none
  score_variance : Option ℚ := none
  epochs : Option Int := none
  epoch_results : Option (List EpochResult) := none
  seed : Option Int := none
  deriving DecidableEq

/-- An evaluation event of the stream protocol. -/
inductive Event where
  | progress (message : String)
  | result (d : ResultData)
  | complete (d : CompleteData)
  | error (code : ErrorCode) (message : String) (details : Option String)
  deriving DecidableEq

/-- `create_error`. -/
def create_error (code : ErrorCode) (message : String) (details : Option String) :
    Event :=
  Event.error code message details

/-- The per-sample latency extraction: provider usage metadata first,
then the recorded start/end timestamps (given in seconds), else zero. -/
def sampleLatency (s : Sample) : ℚ :=
  let l1 : ℚ :=
    if s.hasModelUsage then
      (if s.usageLatencyMs ≠ 0 then s.usageLatencyMs else s.usageLatency * 1000)
    else 0
  if l1 = 0 then
    match s.createdAt, s.completedAt with
    | some a, some b => (b - a) * 1000
    | _, _ => 0
  else l1

/-- Count of correct samples in a list. -/
def countCorrect (l : List Sample) : Nat :=
  (l.filter is_sample_correct).length

/-- The result event the runner emits for sample index `i` (zero-based)
of one epoch: `create_result` with running score
(correct among the first `i+1`) divided by `i+1`. -/
def resultEventAt (epochIdx : Nat) (samples : List Sample) (i : Nat) : Event :=
  let sample := (samples.get? i).getD default
  Event.result
    { question := i + 1
      total := samples.length
      correct := is_sample_correct sample
      running_score := (countCorrect (samples.take (i + 1)) : ℚ) / ((i : ℚ) + 1)
      latency_ms := sampleLatency sample
      predicted := strTake (extract_predicted sample) 50
      expected := strTake (extract_expected sample) 50
      epoch := epochIdx + 1 }

/-- The per-sample result events of one epoch, in order. -/
def sampleResultEvents (epochIdx : Nat) (samples : List Sample) : List Event :=
  (List.range samples.length).map (resultEventAt epochIdx samples)

/-- The inputs of one `run_with_inspect_ai` invocation: the request
parameters, the module-level availability flags, the effective API key
(argument or environment), and the timeout configuration
(`envEvalTimeout` embeds `int(os.getenv("EVAL_TIMEOUT", "600"))`). -/
structure RunConfig where
  inspectAvailable : Bool := true
  evalsAvailable : Bool := true
  model_id : String := ""
  benchmark : String := ""
  limit : Int := 10
  provider : String := "openrouter"
  temperature : Option ℚ := none
  max_tokens : Option Int := none
  seed : Option Int := none
  epochs : Int := 1
  apiKey : Option String := none
  timeout : Option Int := none
  envEvalTimeout : Int := 600

/-- The observable outcome of one epoch's external execution: the
subprocess exit (timeout flag, return code, captured streams), the
log-path scan of the cleaned standard output, the artifact's existence,
and the accuracy figure scraped from the output text.  The two scans
are pure functions of the captured output; they enter the embedding as
recorded values since no claim concerns the scanning itself. -/
structure EpochEnv where
  timedOut : Bool := false
  returncode : Int := 0
  stderr : String := ""
  stdout : String := ""
  foundLogPath : Option String := none
  logExists : Bool := false
  scrapedScore : Option ℚ := none

/-- A character allowed in a model id by the validation pattern. -/
def modelIdCharOk (c : Char) : Bool :=
  c.isAlpha || c.isDigit || c = '.' || c = '_' || c = ':' || c = '/' || c = '-'

/-- `validate_parameters`: `none` when valid, otherwise the error event
(checks in source order; the details dicts are not embedded). -/
def validate_parameters (model_id : String) (benchmark : String) (limit : Int)
    (provider : String) (temperature : Option ℚ) (seed : Option Int)
    (epochs : Option Int) : Option Event :=
  if model_id = "" || pyStrip model_id = "" then
    some (create_error ErrorCode.INVALID_PARAMETER
      "Model ID must be a non-empty string" none)
  else if !(model_id.data.all modelIdCharOk) || model_id.length > 200 then
    some (create_error ErrorCode.INVALID_PARAMETER
      "Model ID contains invalid characters or is too long (max 200 chars)" none)
  else if limit < 1 then
    some (create_error ErrorCode.INVALID_PARAMETER
      "Limit must be a positive integer" none)
  else if limit > 10000 then
    some (create_error ErrorCode.INVALID_PARAMETER
      "Limit cannot exceed 10,000 samples" none)
  else if (match temperature with | some t => decide (t < 0) || decide (t > 2) | none => false) then
    some (create_error ErrorCode.INVALID_PARAMETER
      "Temperature must be between 0 and 2" none)
  else if (match seed with | some sd => decide (sd < 0) | none => false) then
    some (create_error ErrorCode.INVALID_PARAMETER
      "Seed must be a non-negative integer" none)
  else if (match epochs with | some e => decide (e < 1) || decide (e > 100) | none => false) then
    some (create_error ErrorCode.INVALID_PARAMETER
      "Epochs must be between 1 and 100" none)
  else if (PROVIDERS.lookup (strLower provider)).isNone then
    some (create_error ErrorCode.PROVIDER_NOT_FOUND
      ("Unknown provider '" ++ provider ++ "'") none)
  else if (SUPPORTED_BENCHMARKS.lookup benchmark).isNone then
    some (create_error ErrorCode.BENCHMARK_NOT_FOUND
      ("Benchmark '" ++ benchmark ++ "' not supported") none)
  else none

/-- A record of the `BENCHMARK_DEPENDENCIES` table. -/
structure DependencyInfo where
  package : Option String
  install_cmd : Option String
  requirements : List String
  description : String
  deriving DecidableEq

/-- The `BENCHMARK_DEPENDENCIES` table. -/
def BENCHMARK_DEPENDENCIES : List (String × DependencyInfo) :=
  [("swe_bench",
    { package := some "swebench", install_cmd := some "pip install inspect-evals[swe_bench]",
      requirements := ["Python 3.11+", "Docker"],
      description := "Software engineering benchmark requiring code execution sandbox" }),
   ("swe_bench_verified",
    { package := some "swebench", install_cmd := some "pip install inspect-evals[swe_bench]",
      requirements := ["Python 3.11+", "Docker"],
      description := "Verified subset of SWE-bench" }),
   ("mle_bench",
    { package := some "mlebench", install_cmd := some "pip install inspect-evals[mle_bench]",
      requirements := ["Python 3.11+"],
      description := "Machine learning engineering benchmark" }),
   ("mle_bench_lite",
    { package := some "mlebench", install_cmd := some "pip install inspect-evals[mle_bench]",
      requirements := ["Python 3.11+"],
      description := "Lite version of MLE-bench" }),
   ("gaia",
    { package := some "playwright",
      install_cmd := some "pip install inspect-evals[gaia] && playwright install",
      requirements := ["Playwright browsers"],
      description := "General AI assistants benchmark with web browsing" }),
   ("gaia_level1",
    { package := some "playwright",
      install_cmd := some "pip install inspect-evals[gaia] && playwright install",
      requirements := ["Playwright browsers"], description := "GAIA Level 1 tasks" }),
   ("gaia_level2",
    { package := some "playwright",
      install_cmd := some "pip install inspect-evals[gaia] && playwright install",
      requirements := ["Playwright browsers"], description := "GAIA Level 2 tasks" }),
   ("gaia_level3",
    { package := some "playwright",
      install_cmd := some "pip install inspect-evals[gaia] && playwright install",
      requirements := ["Playwright browsers"], description := "GAIA Level 3 tasks" }),
   ("cybench",
    { package := none, install_cmd := none,
      requirements := ["Docker", "65GB+ disk space"],
      description := "Cybersecurity benchmark requiring Docker containers" }),
   ("gdm_intercode_ctf",
    { package := none, install_cmd := none,
      requirements := ["Docker", "32GB+ RAM"],
      description := "GDM CTF benchmark requiring Docker" }),
   ("gdm_in_house_ctf",
    { package := none, install_cmd := none,
      requirements := ["Docker", "32GB+ RAM"],
      description := "GDM in-house CTF benchmark requiring Docker" }),
   ("osworld",
    { package := none, install_cmd := none,
      requirements := ["Docker"],
      description := "OS-level task benchmark requiring Docker" }),
   ("osworld_small",
    { package := none, install_cmd := none,
      requirements := ["Docker"],
      description := "Small subset of OSWorld" }),
   ("sciknoweval",
    { package := some "gensim", install_cmd := some "pip install gensim",
      requirements := ["Python 3.10-3.12 (not 3.13+)"],
      description := "Scientific knowledge evaluation (gensim dependency)" })]

/-- `get_benchmark_dependency_info`. -/
def get_benchmark_dependency_info (b : String) : Option DependencyInfo :=
  BENCHMARK_DEPENDENCIES.lookup b

/-- The dependency-failure signatures scanned for in error text. -/
def dependency_error_patterns : List String :=
  ["please install", "modulenotfounderror", "no module named", "importerror",
   "docker", "package not found", "swebench", "mlebench", "playwright", "gensim"]

/-- The benchmarks that need Docker and get an extended deadline. -/
def docker_benchmarks : List String :=
  ["swe_bench", "swe_bench_verified", "cybench", "gdm_intercode_ctf",
   "gdm_in_house_ctf", "osworld", "osworld_small"]

/-- The per-run deadline: Docker benchmarks get a large fixed floor plus
a per-sample allowance, reasoning models a per-sample allowance over
the configured baseline. -/
def computeEvalTimeout (cfg : RunConfig) : Int :=
  let base := cfg.timeout.getD cfg.envEvalTimeout
  if docker_benchmarks.contains cfg.benchmark then
    max 1800 (1800 + cfg.limit * 300)
  else if is_reasoning_model cfg.model_id then
    max base (cfg.limit * 60)
  else base

/-- `error_msg = result.stderr or result.stdout or "Unknown error"`. -/
def effectiveErrorMsg (env : EpochEnv) : String :=
  if env.stderr ≠ "" then env.stderr
  else if env.stdout ≠ "" then env.stdout
  else "Unknown error"

/-- Whether the captured error text matches a dependency-failure
signature. -/
def is_dependency_error (msg : String) : Bool :=
  dependency_error_patterns.any (fun p => strContains (strLower msg) p)

/-- The EVALUATION_FAILED event for a nonzero exit: enriched with the
static remediation record when a dependency signature matches and one
exists, generic otherwise (the exact guidance text is summarized). -/
def runFailureEvent (benchmark : String) (env : EpochEnv) : Event :=
  let msg := effectiveErrorMsg env
  if is_dependency_error msg then
    match get_benchmark_dependency_info benchmark with
    | some dep =>
      create_error ErrorCode.EVALUATION_FAILED
        ("Benchmark '" ++ benchmark ++ "' requires additional dependencies. "
          ++ dep.description)
        (some (strTake msg 1000))
    | none =>
      create_error ErrorCode.EVALUATION_FAILED
        ("Benchmark '" ++ benchmark
          ++ "' failed due to missing dependencies. Check the error details for more information.")
        (some (strTake msg 1000))
  else
    create_error ErrorCode.EVALUATION_FAILED
      "Benchmark evaluation failed. Please check your API key and try again."
      (some (strTake msg 1000))

/-- The EVALUATION_TIMEOUT event naming the configured deadline. -/
def timeoutError (eval_timeout : Int) : Event :=
  create_error ErrorCode.EVALUATION_TIMEOUT
    ("Evaluation timed out after " ++ (Int.ediv eval_timeout 60).repr
      ++ " minutes. Consider reducing the sample limit or using a faster model.")
    none

/-- The PARSE_ERROR event for a found artifact that failed to parse. -/
def parseFailError (log_path : String) : Event :=
  create_error ErrorCode.PARSE_ERROR ("Failed to parse results from " ++ log_path) none

/-- The PARSE_ERROR event for the failed standard-output fallback,
carrying the output preview. -/
def scrapeFailError (stdout : String) : Event :=
  create_error ErrorCode.PARSE_ERROR "Could not parse benchmark results"
    (some (strTake stdout 500))

/-- Truncation toward zero, Python `int()` on a float. -/
def pyTrunc (q : ℚ) : Int :=
  if 0 ≤ q then Int.floor q else -(Int.floor (-q))

/-- The epoch result built from a scraped accuracy figure: a value
above 1 is read as a percentage; `correct` is derived from the score
and the requested limit; `total` is the limit. -/
def scrapeEpochResult (epochIdx : Nat) (score : ℚ) (limit : Int) : EpochResult :=
  let s := if score > 1 then score / 100 else score
  { epoch := epochIdx + 1, score := s, correct := pyTrunc (s * limit), total := limit }

/-- The epoch result counted from parsed samples. -/
def logEpochResult (epochIdx : Nat) (samples : List Sample) : EpochResult :=
  let total := samples.length
  let correct := countCorrect samples
  { epoch := epochIdx + 1
    score := if 0 < total then (correct : ℚ) / (total : ℚ) else 0
    correct := (correct : Int)
    total := (total : Int) }

/-- Join strings with single spaces (Python `" ".join`). -/
def joinSpace : List String → String
  | [] => ""
  | [x] => x
  | x :: xs => x ++ " " ++ joinSpace xs

/-- The initial progress event announcing dispatch. -/
def startProgress (cfg : RunConfig) (task_name provider_name : String) : Event :=
  Event.progress ("Running " ++ task_name ++ " via " ++ provider_name
    ++ " with limit=" ++ cfg.limit.repr
    ++ (match cfg.seed with
        | some sd => if sd ≠ 0 then ", seed=" ++ sd.repr else ""
        | none => "")
    ++ (if cfg.epochs > 1 then ", epochs=" ++ cfg.epochs.repr else "")
    ++ "...")

/-- The progress events at the start of one epoch iteration: the
epoch announcement (only when more than one epoch was requested) and
the execution announcement echoing the command head. -/
def epochStartEvents (cfg : RunConfig) (epochIdx : Nat) (cmd : List String) :
    List Event :=
  (if cfg.epochs > 1 then
    [Event.progress ("Starting epoch " ++ (epochIdx + 1).repr ++ "/"
      ++ cfg.epochs.repr ++ "...")]
   else [])
  ++ [Event.progress ("Executing: " ++ joinSpace (cmd.take 5) ++ "...")]

/-- The progress event after a successful epoch when more than one
epoch was requested (the source formats the epoch score into the text;
the formatted number is outside the embedding). -/
def epochDoneEvents (cfg : RunConfig) (epochIdx : Nat) : List Event :=
  if cfg.epochs > 1 then
    [Event.progress ("Epoch " ++ (epochIdx + 1).repr ++ " complete")]
  else []

/-- One epoch of the runner loop: the emitted events, and either the
epoch's aggregate (the run continues) or `none` (a terminal error was
emitted and the generator returns). -/
def runEpoch (cfg : RunConfig) (cwd : List String) (fs : String → Option LogData)
    (env : EpochEnv) (epochIdx : Nat) (cmd : List String) (eval_timeout : Int) :
    List Event × Option EpochResult :=
  let pre := epochStartEvents cfg epochIdx cmd
  if env.timedOut then (pre ++ [timeoutError eval_timeout], none)
  else if env.returncode ≠ 0 then (pre ++ [runFailureEvent cfg.benchmark env], none)
  else
    match env.foundLogPath with
    | some p =>
      if env.logExists then
        match parse_log_results cwd fs p with
        | none => (pre ++ [parseFailError p], none)
        | some ld =>
          (pre ++ (if epochIdx = 0 then sampleResultEvents epochIdx ld.samples else []),
           some (logEpochResult epochIdx ld.samples))
      else
        match env.scrapedScore with
        | some v =>
          (pre ++ [Event.progress "Parsing results from output..."],
           some (scrapeEpochResult epochIdx v cfg.limit))
        | none =>
          (pre ++ [Event.progress "Parsing results from output...",
                   scrapeFailError env.stdout], none)
    | none =>
      match env.scrapedScore with
      | some v =>
        (pre ++ [Event.progress "Parsing results from output..."],
         some (scrapeEpochResult epochIdx v cfg.limit))
      | none =>
        (pre ++ [Event.progress "Parsing results from output...",
                 scrapeFailError env.stdout], none)

/-- The epoch loop: runs the remaining `k` epochs starting at index
`epochIdx`, accumulating the epoch results; stops at the first
terminal error. -/
def runEpochsLoop (cfg : RunConfig) (cwd : List String)
    (fs : String → Option LogData) (envs : Nat → EpochEnv) (cmd : List String)
    (eval_timeout : Int) :
    Nat → Nat → List EpochResult → List Event × Option (List EpochResult)
  | 0, _, acc => ([], some acc)
  | k + 1, epochIdx, acc =>
    match runEpoch cfg cwd fs (envs epochIdx) epochIdx cmd eval_timeout with
    | (es, none) => (es, none)
    | (es, some er) =>
      match runEpochsLoop cfg cwd fs envs cmd eval_timeout k (epochIdx + 1)
          (acc ++ [er]) with
      | (rest, out) => (es ++ epochDoneEvents cfg epochIdx ++ rest, out)

/-- Python `sum` over rationals (left fold from zero). -/
def pySum (l : List ℚ) : ℚ := l.foldl (· + ·) 0

/-- Python `min` over a score list (zero only for the empty list, which
the runner never passes). -/
def pyMinL (l : List ℚ) : ℚ :=
  match l with
  | [] => 0
  | h :: t => t.foldl min h

/-- Python `max` over a score list. -/
def pyMaxL (l : List ℚ) : ℚ :=
  match l with
  | [] => 0
  | h :: t => t.foldl max h

/-- The complete event of a multi-epoch run: arithmetic-mean score,
minimum and maximum epoch scores, their difference as the variance
indicator, summed corrects and totals, and the per-epoch results. -/
def aggregateComplete (cfg : RunConfig) (provider_name : String)
    (rs : List EpochResult) : Event :=
  let scores := rs.map EpochResult.score
  let mn := pyMinL scores
  let mx := pyMaxL scores
  Event.complete
    { score := pySum scores / (scores.length : ℚ)
      correct := (rs.map EpochResult.correct).sum
      total := (rs.map EpochResult.total).sum
      model := cfg.model_id
      benchmark := cfg.benchmark
      provider := strLower cfg.provider
      provider_name := provider_name
      min_score := some mn
      max_score := some mx
      score_variance := some (mx - mn)
      epochs := some cfg.epochs
      epoch_results := some rs
      seed := cfg.seed }

/-- The complete event of a single-epoch run (with the source's default
record when the result list is empty). -/
def singleComplete (cfg : RunConfig) (provider_name : String)
    (rs : List EpochResult) : Event :=
  let rd := rs.headD { epoch := 0, score := 0, correct := 0, total := cfg.limit }
  Event.complete
    { score := rd.score
      correct := rd.correct
      total := rd.total
      model := cfg.model_id
      benchmark := cfg.benchmark
      provider := strLower cfg.provider
      provider_name := provider_name
      seed := cfg.seed }

/-- `run_with_inspect_ai`: the full event stream of one invocation as a
function of the request `cfg`, the working directory, the filesystem
oracle, and the per-epoch external outcomes. -/
def run_with_inspect_ai (cfg : RunConfig) (cwd : List String)
    (fs : String → Option LogData) (envs : Nat → EpochEnv) : List Event :=
  let provider := strLower cfg.provider
  if !cfg.inspectAvailable then
    [create_error ErrorCode.INSPECT_NOT_INSTALLED
      "inspect-ai not installed. Run: pip install inspect-ai" none]
  else if !cfg.evalsAvailable then
    [create_error ErrorCode.EVALS_NOT_INSTALLED
      "inspect-evals not installed. Run: pip install inspect-evals" none]
  else
    match validate_parameters cfg.model_id cfg.benchmark cfg.limit provider
        cfg.temperature cfg.seed (some cfg.epochs) with
    | some e => [e]
    | none =>
      let task_name := (SUPPORTED_BENCHMARKS.lookup cfg.benchmark).getD ""
      let pc := (PROVIDERS.lookup provider).getD default
      match cfg.apiKey with
      | none =>
        [create_error ErrorCode.API_KEY_MISSING
          ("API key not configured for provider '" ++ provider ++ "'. Please set "
            ++ pc.api_key_env ++ " environment variable.") none]
      | some _ =>
        let eval_timeout := computeEvalTimeout cfg
        let cmd := build_inspect_command task_name cfg.model_id cfg.limit provider pc
          cfg.temperature cfg.seed cfg.max_tokens none
        let body := runEpochsLoop cfg cwd fs envs cmd eval_timeout cfg.epochs.toNat 0 []
        [startProgress cfg task_name pc.name]
          ++ body.1
          ++ (match body.2 with
              | none => []
              | some rs =>
                if cfg.epochs > 1 then [aggregateComplete cfg pc.name rs]
                else [singleComplete cfg pc.name rs])

/-- Whether an event is terminal (complete or error). -/
def isTerminal : Event → Bool
  | Event.complete _ => true
  | Event.error _ _ _ => true
  | _ => false

/-- Number of terminal events in a stream. -/
def terminalCount (es : List Event) : Nat :=
  (es.filter isTerminal).length

theorem terminalCount_eq_zero {es : List Event} (h : ∀ e ∈ es, isTerminal e = false) :
    terminalCount es = 0 := by
  induction es with
  | nil => rfl
  | cons x xs ih =>
    have hx := h x (List.mem_cons_self x xs)
    have hxs := ih (fun e he => h e (List.mem_cons_of_mem x he))
    simp only [terminalCount, List.filter_cons, hx] at hxs ⊢
    simpa using hxs

theorem terminalCount_append (a b : List Event) :
    terminalCount (a ++ b) = terminalCount a + terminalCount b := by
  simp [terminalCount, List.filter_append]

theorem terminalCount_sampleResultEvents (e : Nat) (samples : List Sample) :
    terminalCount (sampleResultEvents e samples) = 0 := by
  apply terminalCount_eq_zero
  intro ev hev
  obtain ⟨i, _, rfl⟩ := List.mem_map.mp hev
  rfl

theorem epochStart_no_terminal (cfg : RunConfig) (epochIdx : Nat) (cmd : List String) :
    terminalCount (epochStartEvents cfg epochIdx cmd) = 0 := by
  apply terminalCount_eq_zero
  intro e he
  simp only [epochStartEvents, List.mem_append, List.mem_cons, List.not_mem_nil,
    or_false] at he
  rcases he with he | he
  · by_cases h1 : cfg.epochs > 1
    · rw [if_pos h1] at he
      rcases List.mem_singleton.mp he with rfl
      rfl
    · rw [if_neg h1] at he
      exact absurd he (List.not_mem_nil e)
  · rw [he]
    rfl

theorem epochDone_no_terminal (cfg : RunConfig) (epochIdx : Nat) :
    terminalCount (epochDoneEvents cfg epochIdx) = 0 := by
  apply terminalCount_eq_zero
  intro e he
  simp only [epochDoneEvents] at he
  by_cases h1 : cfg.epochs > 1
  · rw [if_pos h1] at he
    rcases List.mem_singleton.mp he with rfl
    rfl
  · rw [if_neg h1] at he
    exact absurd he (List.not_mem_nil e)

theorem isTerminal_runFailureEvent (b : String) (env : EpochEnv) :
    isTerminal (runFailureEvent b env) = true := by
  unfold runFailureEvent
  cases hd : is_dependency_error (effectiveErrorMsg env) <;>
    cases hdep : get_benchmark_dependency_info b <;>
      simp [hd, hdep, create_error, isTerminal]

theorem runEpoch_spec (cfg : RunConfig) (cwd : List String)
    (fs : String → Option LogData) (env : EpochEnv) (epochIdx : Nat)
    (cmd : List String) (t : Int) :
    (∃ pre e, (runEpoch cfg cwd fs env epochIdx cmd t).1 = pre ++ [e]
        ∧ isTerminal e = true ∧ terminalCount pre = 0
        ∧ (runEpoch cfg cwd fs env epochIdx cmd t).2 = none)
    ∨ (terminalCount (runEpoch cfg cwd fs env epochIdx cmd t).1 = 0
        ∧ ∃ er, (runEpoch cfg cwd fs env epochIdx cmd t).2 = some er) := by
  have hpre := epochStart_no_terminal cfg epochIdx cmd
  obtain ⟨tmo, rc, serr, sout, flp, lex, ss⟩ := env
  cases tmo with
  | true =>
    exact Or.inl ⟨_, _, rfl, rfl, hpre, rfl⟩
  | false =>
    by_cases hrc : rc ≠ 0
    · refine Or.inl ⟨epochStartEvents cfg epochIdx cmd,
        runFailureEvent cfg.benchmark ⟨false, rc, serr, sout, flp, lex, ss⟩,
        ?_, isTerminal_runFailureEvent _ _, hpre, ?_⟩ <;>
        simp [runEpoch, hrc]
    · cases flp with
      | some p =>
        cases lex with
        | true =>
          cases hp : parse_log_results cwd fs p with
          | none =>
            refine Or.inl ⟨epochStartEvents cfg epochIdx cmd, parseFailError p,
              ?_, rfl, hpre, ?_⟩ <;>
              simp [runEpoch, hrc, hp]
          | some ld =>
            refine Or.inr ⟨?_, logEpochResult epochIdx ld.samples, ?_⟩
            · have heq : (runEpoch cfg cwd fs ⟨false, rc, serr, sout, some p, true, ss⟩
                  epochIdx cmd t).1 =
                  epochStartEvents cfg epochIdx cmd
                    ++ (if epochIdx = 0 then sampleResultEvents epochIdx ld.samples
                        else []) := by
                simp [runEpoch, hrc, hp]
              rw [heq, terminalCount_append, hpre]
              by_cases h0 : epochIdx = 0
              · rw [if_pos h0, terminalCount_sampleResultEvents]
              · rw [if_neg h0]
                rfl
            · simp [runEpoch, hrc, hp]
        | false =>
          cases ss with
          | some v =>
            refine Or.inr ⟨?_, scrapeEpochResult epochIdx v cfg.limit, ?_⟩
            · have heq : (runEpoch cfg cwd fs ⟨false, rc, serr, sout, some p, false,
                  some v⟩ epochIdx cmd t).1 =
                  epochStartEvents cfg epochIdx cmd
                    ++ [Event.progress "Parsing results from output..."] := by
                simp [runEpoch, hrc]
              rw [heq, terminalCount_append, hpre]
              rfl
            · simp [runEpoch, hrc]
          | none =>
            refine Or.inl ⟨epochStartEvents cfg epochIdx cmd
              ++ [Event.progress "Parsing results from output..."],
              scrapeFailError sout, ?_, rfl, ?_, ?_⟩
            · simp [runEpoch, hrc]
            · rw [terminalCount_append, hpre]
              rfl
            · simp [runEpoch, hrc]
      | none =>
        cases ss with
        | some v =>
          refine Or.inr ⟨?_, scrapeEpochResult epochIdx v cfg.limit, ?_⟩
          · have heq : (runEpoch cfg cwd fs ⟨false, rc, serr, sout, none, lex, some v⟩
                epochIdx cmd t).1 =
                epochStartEvents cfg epochIdx cmd
                  ++ [Event.progress "Parsing results from output..."] := by
              cases lex <;> simp [runEpoch, hrc]
            rw [heq, terminalCount_append, hpre]
            rfl
          · cases lex <;> simp [runEpoch, hrc]
        | none =>
          refine Or.inl ⟨epochStartEvents cfg epochIdx cmd
            ++ [Event.progress "Parsing results from output..."],
            scrapeFailError sout, ?_, rfl, ?_, ?_⟩
          · cases lex <;> simp [runEpoch, hrc]
          · rw [terminalCount_append, hpre]
            rfl
          · cases lex <;> simp [runEpoch, hrc]

theorem runEpochsLoop_spec (cfg : RunConfig) (cwd : List String)
    (fs : String → Option LogData) (envs : Nat → EpochEnv) (cmd : List String)
    (t : Int) :
    ∀ (k epochIdx : Nat) (acc : List EpochResult),
      (∃ pre e, (runEpochsLoop cfg cwd fs envs cmd t k epochIdx acc).1 = pre ++ [e]
          ∧ isTerminal e = true ∧ terminalCount pre = 0
          ∧ (runEpochsLoop cfg cwd fs envs cmd t k epochIdx acc).2 = none)
      ∨ (terminalCount (runEpochsLoop cfg cwd fs envs cmd t k epochIdx acc).1 = 0
          ∧ ∃ rs, (runEpochsLoop cfg cwd fs envs cmd t k epochIdx acc).2 = some rs) := by
  intro k
  induction k with
  | zero =>
    intro epochIdx acc
    exact Or.inr ⟨rfl, acc, rfl⟩
  | succ k ih =>
    intro epochIdx acc
    rcases hre : runEpoch cfg cwd fs (envs epochIdx) epochIdx cmd t with ⟨es, r⟩
    rcases runEpoch_spec cfg cwd fs (envs epochIdx) epochIdx cmd t with
      ⟨pre, e, h1, h2, h3, h4⟩ | ⟨h1, er, h2⟩
    · rw [hre] at h1 h4
      simp only at h1 h4
      subst h4
      left
      refine ⟨pre, e, ?_, h2, h3, ?_⟩ <;>
        simp [runEpochsLoop, hre, h1]
    · rw [hre] at h1 h2
      simp only at h1 h2
      subst h2
      rcases hloop : runEpochsLoop cfg cwd fs envs cmd t k (epochIdx + 1)
          (acc ++ [er]) with ⟨rest, out⟩
      rcases ih (epochIdx + 1) (acc ++ [er]) with
        ⟨pre2, e2, g1, g2, g3, g4⟩ | ⟨g1, rs, g4⟩
      · rw [hloop] at g1 g4
        simp only at g1 g4
        subst g4
        left
        refine ⟨es ++ epochDoneEvents cfg epochIdx ++ pre2, e2, ?_, g2, ?_, ?_⟩
        · simp [runEpochsLoop, hre, hloop, g1, List.append_assoc]
        · rw [terminalCount_append, terminalCount_append, h1,
            epochDone_no_terminal cfg epochIdx, g3]
        · simp [runEpochsLoop, hre, hloop]
      · rw [hloop] at g1 g4
        simp only at g1 g4
        subst g4
        right
        refine ⟨?_, rs, ?_⟩
        · have heq : (runEpochsLoop cfg cwd fs envs cmd t (k + 1) epochIdx acc).1 =
              es ++ epochDoneEvents cfg epochIdx ++ rest := by
            simp [runEpochsLoop, hre, hloop]
          rw [heq, terminalCount_append, terminalCount_append, h1,
            epochDone_no_terminal cfg epochIdx, g1]
        · simp [runEpochsLoop, hre, hloop]

theorem validate_isTerminal (model_id benchmark : String) (limit : Int)
    (provider : String) (temperature : Option ℚ) (seed : Option Int)
    (epochs : Option Int) (e : Event)
    (hv : validate_parameters model_id benchmark limit provider temperature seed
      epochs = some e) : isTerminal e = true := by
  unfold validate_parameters at hv
  repeat' split at hv
  all_goals first
  | (injection hv with h2; rw [← h2]; rfl)
  | simp at hv

/-- C8: every invocation of the runner produces a stream with exactly
one terminal event (a complete or an error), which is the last element;
no event of any type follows it.  Quantified over every request,
working directory, filesystem, and per-epoch external outcome. -/
theorem C8_exactly_one_terminal_last (cfg : RunConfig) (cwd : List String)
    (fs : String → Option LogData) (envs : Nat → EpochEnv) :
    ∃ pre e, run_with_inspect_ai cfg cwd fs envs = pre ++ [e]
      ∧ isTerminal e = true ∧ terminalCount pre = 0 := by
  unfold run_with_inspect_ai
  cases hia : cfg.inspectAvailable with
  | false => exact ⟨[], _, rfl, rfl, rfl⟩
  | true =>
    cases hea : cfg.evalsAvailable with
    | false => exact ⟨[], _, rfl, rfl, rfl⟩
    | true =>
      simp only
      cases hv : validate_parameters cfg.model_id cfg.benchmark cfg.limit
          (strLower cfg.provider) cfg.temperature cfg.seed (some cfg.epochs) with
      | some e =>
        exact ⟨[], e, by simp [hv], validate_isTerminal _ _ _ _ _ _ _ _ hv, rfl⟩
      | none =>
        cases hk : cfg.apiKey with
        | none =>
          exact ⟨[], create_error ErrorCode.API_KEY_MISSING
            ("API key not configured for provider '" ++ strLower cfg.provider
              ++ "'. Please set "
              ++ ((PROVIDERS.lookup (strLower cfg.provider)).getD default).api_key_env
              ++ " environment variable.") none, by simp [hv, hk], rfl, rfl⟩
        | some key =>
          rcases hloop : runEpochsLoop cfg cwd fs envs
              (build_inspect_command ((SUPPORTED_BENCHMARKS.lookup cfg.benchmark).getD "")
                cfg.model_id cfg.limit (strLower cfg.provider)
                ((PROVIDERS.lookup (strLower cfg.provider)).getD default)
                cfg.temperature cfg.seed cfg.max_tokens none)
              (computeEvalTimeout cfg) cfg.epochs.toNat 0 [] with ⟨es, r⟩
          rcases runEpochsLoop_spec cfg cwd fs envs _ _ cfg.epochs.toNat 0 [] with
            ⟨pre, e, h1, h2, h3, h4⟩ | ⟨h1, rs, h4⟩
          · rw [hloop] at h1 h4
            simp only at h1 h4
            subst h4
            refine ⟨startProgress cfg ((SUPPORTED_BENCHMARKS.lookup cfg.benchmark).getD "")
                ((PROVIDERS.lookup (strLower cfg.provider)).getD default).name :: pre,
              e, ?_, h2, ?_⟩
            · simp [hv, hk, hloop, h1]
            · simpa [terminalCount, List.filter_cons, startProgress, isTerminal] using h3
          · rw [hloop] at h1 h4
            simp only at h1 h4
            subst h4
            by_cases hep : cfg.epochs > 1
            · refine ⟨startProgress cfg ((SUPPORTED_BENCHMARKS.lookup cfg.benchmark).getD "")
                  ((PROVIDERS.lookup (strLower cfg.provider)).getD default).name :: es,
                aggregateComplete cfg
                  ((PROVIDERS.lookup (strLower cfg.provider)).getD default).name rs,
                ?_, rfl, ?_⟩
              · simp [hv, hk, hloop, hep]
              · simpa [terminalCount, List.filter_cons, startProgress, isTerminal] using h1
            · refine ⟨startProgress cfg ((SUPPORTED_BENCHMARKS.lookup cfg.benchmark).getD "")
                  ((PROVIDERS.lookup (strLower cfg.provider)).getD default).name :: es,
                singleComplete cfg
                  ((PROVIDERS.lookup (strLower cfg.provider)).getD default).name rs,
                ?_, rfl, ?_⟩
              · simp [hv, hk, hloop, hep]
              · simpa [terminalCount, List.filter_cons, startProgress, isTerminal] using h1

/-- C6: for every log path whose resolved absolute path fails the
containment check of the runner (it neither equals the resolved logs
directory nor extends it past a separator), `parse_log_results` returns
`None` for every possible filesystem content — the guard rejects the
path before any file access. -/
theorem C6_traversal_rejected (cwd : List String) (log_path : String)
    (h : logPathAllowed cwd log_path = false) :
    ∀ fs : String → Option LogData, parse_log_results cwd fs log_path = none := by
  intro fs
  simp [parse_log_results, h]

theorem C6_traversal_rejected_witness :
    pyAbspath ["srv", "app"] "../../etc/passwd" = "/etc/passwd"
    ∧ logPathAllowed ["srv", "app"] "../../etc/passwd" = false
    ∧ parse_log_results ["srv", "app"]
        (fun _ => some { status := "success", samples := [] })
        "../../etc/passwd" = none :=
  ⟨by decide, by decide,
   C6_traversal_rejected ["srv", "app"] "../../etc/passwd" (by decide)
     (fun _ => some { status := "success", samples := [] })⟩

/-- The error code of an event, when it is an error event. -/
def eventCode : Event → Option ErrorCode
  | Event.error c _ _ => some c
  | _ => none

/-- The message of an error event. -/
def eventErrorMessage : Event → Option String
  | Event.error _ m _ => some m
  | _ => none

/-- The code and message of the last event, when it is an error. -/
def lastError (es : List Event) : Option (ErrorCode × String) :=
  match es.getLast? with
  | some (Event.error c m _) => some (c, m)
  | _ => none

/-- The request used by the C7 counterexample runs. -/
def c7cfg : RunConfig :=
  { model_id := "gpt-4o", benchmark := "mmlu", limit := 5,
    provider := "openrouter", epochs := 1, apiKey := some "k" }

/-- C7 counterexample: a run whose found artifact fails to parse and a
run with no artifact whose stdout fallback also fails both terminate
with the SAME error kind, PARSE_ERROR — the kinds are not distinct. -/
theorem C7_counterexample :
    lastError (run_with_inspect_ai c7cfg ["srv"] (fun _ => none)
        (fun _ => { foundLogPath := some "logs/a.eval", logExists := true })) =
      some (ErrorCode.PARSE_ERROR, "Failed to parse results from logs/a.eval")
    ∧ lastError (run_with_inspect_ai c7cfg ["srv"] (fun _ => none)
        (fun _ => { stdout := "no accuracy here" })) =
      some (ErrorCode.PARSE_ERROR, "Could not parse benchmark results") := by
  decide

/-- C7 (amended): both failure modes carry the same PARSE_ERROR code
and are distinguished only by their messages (and details): parse
failure of a found artifact names the log path, the failed stdout
fallback reports that results could not be parsed, with an output
preview in its details. -/
theorem C7_same_code_distinct_message (p sout : String) :
    eventCode (parseFailError p) = some ErrorCode.PARSE_ERROR
    ∧ eventCode (scrapeFailError sout) = some ErrorCode.PARSE_ERROR
    ∧ eventErrorMessage (parseFailError p) ≠ eventErrorMessage (scrapeFailError sout) := by
  refine ⟨rfl, rfl, ?_⟩
  intro h
  have h2 := Option.some.inj h
  exact append_ne_of_head_ne "Failed to parse results from " p _ 'F'
    (by decide) (by decide) h2

/-- The running score carried by a result event. -/
def eventRunningScore : Event → Option ℚ
  | Event.result d => some d.running_score
  | _ => none

/-- C4: the k-th result event of an epoch's per-sample stream carries
running score exactly (number of correct among the first k) / k. -/
theorem C4_running_score (epochIdx : Nat) (samples : List Sample) (k : Nat)
    (h1 : 1 ≤ k) (h2 : k ≤ samples.length) :
    ((sampleResultEvents epochIdx samples).get? (k - 1)).bind eventRunningScore =
      some ((countCorrect (samples.take k) : ℚ) / (k : ℚ)) := by
  have hk : k - 1 < samples.length := by omega
  have hk1 : k - 1 + 1 = k := by omega
  rw [sampleResultEvents, List.get?_map, List.get?_range hk]
  simp only [Option.map_some', Option.some_bind]
  show some ((countCorrect (samples.take (k - 1 + 1)) : ℚ) / (((k - 1 : Nat) : ℚ) + 1))
    = _
  have h3 : (k - 1).succ = k := hk1
  rw [hk1, ← Nat.cast_succ, h3]

/-- The two-sample log used by the C4 witness: first sample correct,
second incorrect. -/
def c4samples : List Sample :=
  [{ choices := [MessageContent.str "Answer: A"], target := "A",
     scoresChoice := some { explanation := "", value := "", answer := "" } },
   { choices := [MessageContent.str "Answer: A"], target := "B",
     scoresChoice := some { explanation := "", value := "", answer := "" } }]

theorem C4_running_score_witness :
    ((sampleResultEvents 0 c4samples).get? 1).bind eventRunningScore = some (1 / 2) := by
  have h := C4_running_score 0 c4samples 2 (by decide) (by decide)
  rw [h]
  have hc : countCorrect (c4samples.take 2) = 1 := by decide
  rw [hc]
  norm_num

theorem foldl_min_mem : ∀ (t : List ℚ) (h : ℚ), t.foldl min h ∈ h :: t := by
  intro t
  induction t with
  | nil => intro h; simp
  | cons c t ih =>
    intro h
    rw [List.foldl_cons]
    rcases List.mem_cons.mp (ih (min h c)) with hm | hm
    · rcases min_choice h c with hc | hc
      · rw [hm, hc]
        exact List.mem_cons_self _ _
      · rw [hm, hc]
        exact List.mem_cons_of_mem _ (List.mem_cons_self _ _)
    · exact List.mem_cons_of_mem _ (List.mem_cons_of_mem _ hm)

theorem foldl_min_le : ∀ (t : List ℚ) (h : ℚ), ∀ x ∈ h :: t, t.foldl min h ≤ x := by
  intro t
  induction t with
  | nil =>
    intro h x hx
    rcases List.mem_cons.mp hx with h1 | h1
    · rw [h1]
      simp
    · simp at h1
  | cons c t ih =>
    intro h x hx
    rw [List.foldl_cons]
    rcases List.mem_cons.mp hx with h1 | h1
    · rw [h1]
      exact le_trans (ih (min h c) (min h c) (List.mem_cons_self _ _)) (min_le_left h c)
    · rcases List.mem_cons.mp h1 with h2 | h2
      · rw [h2]
        exact le_trans (ih (min h c) (min h c) (List.mem_cons_self _ _)) (min_le_right h c)
      · exact ih (min h c) x (List.mem_cons_of_mem _ h2)

theorem foldl_max_mem : ∀ (t : List ℚ) (h : ℚ), t.foldl max h ∈ h :: t := by
  intro t
  induction t with
  | nil => intro h; simp
  | cons c t ih =>
    intro h
    rw [List.foldl_cons]
    rcases List.mem_cons.mp (ih (max h c)) with hm | hm
    · rcases max_choice h c with hc | hc
      · rw [hm, hc]
        exact List.mem_cons_self _ _
      · rw [hm, hc]
        exact List.mem_cons_of_mem _ (List.mem_cons_self _ _)
    · exact List.mem_cons_of_mem _ (List.mem_cons_of_mem _ hm)

theorem foldl_max_le : ∀ (t : List ℚ) (h : ℚ), ∀ x ∈ h :: t, x ≤ t.foldl max h := by
  intro t
  induction t with
  | nil =>
    intro h x hx
    rcases List.mem_cons.mp hx with h1 | h1
    · rw [h1]
      simp
    · simp at h1
  | cons c t ih =>
    intro h x hx
    rw [List.foldl_cons]
    rcases List.mem_cons.mp hx with h1 | h1
    · rw [h1]
      exact le_trans (le_max_left h c) (ih (max h c) (max h c) (List.mem_cons_self _ _))
    · rcases List.mem_cons.mp h1 with h2 | h2
      · rw [h2]
        exact le_trans (le_max_right h c) (ih (max h c) (max h c) (List.mem_cons_self _ _))
      · exact ih (max h c) x (List.mem_cons_of_mem _ h2)

theorem pyMinL_spec (l : List ℚ) (hne : l ≠ []) :
    pyMinL l ∈ l ∧ ∀ x ∈ l, pyMinL l ≤ x := by
  cases l with
  | nil => exact absurd rfl hne
  | cons h t => exact ⟨foldl_min_mem t h, foldl_min_le t h⟩

theorem pyMaxL_spec (l : List ℚ) (hne : l ≠ []) :
    pyMaxL l ∈ l ∧ ∀ x ∈ l, x ≤ pyMaxL l := by
  cases l with
  | nil => exact absurd rfl hne
  | cons h t => exact ⟨foldl_max_mem t h, foldl_max_le t h⟩

/-- C5: for more than one epoch the complete event reports score equal
to the arithmetic mean of the per-epoch scores (stated as
score · n = sum of the n scores), min_score a genuine minimum of the
epoch scores, max_score a genuine maximum, and score_variance exactly
their difference. -/
theorem C5_epoch_aggregation (cfg : RunConfig) (pname : String)
    (rs : List EpochResult) (hne : rs ≠ []) :
    ∃ d, aggregateComplete cfg pname rs = Event.complete d
      ∧ d.score * ((rs.map EpochResult.score).length : ℚ)
          = pySum (rs.map EpochResult.score)
      ∧ d.min_score = some (pyMinL (rs.map EpochResult.score))
      ∧ pyMinL (rs.map EpochResult.score) ∈ rs.map EpochResult.score
      ∧ (∀ x ∈ rs.map EpochResult.score, pyMinL (rs.map EpochResult.score) ≤ x)
      ∧ d.max_score = some (pyMaxL (rs.map EpochResult.score))
      ∧ pyMaxL (rs.map EpochResult.score) ∈ rs.map EpochResult.score
      ∧ (∀ x ∈ rs.map EpochResult.score, x ≤ pyMaxL (rs.map EpochResult.score))
      ∧ d.score_variance = some (pyMaxL (rs.map EpochResult.score)
          - pyMinL (rs.map EpochResult.score)) := by
  have hmapne : rs.map EpochResult.score ≠ [] := by
    cases rs with
    | nil => exact absurd rfl hne
    | cons a b => simp
  have hlen : ((rs.map EpochResult.score).length : ℚ) ≠ 0 := by
    have : 0 < (rs.map EpochResult.score).length :=
      List.length_pos.mpr hmapne
    exact_mod_cast Nat.pos_iff_ne_zero.mp this
  obtain ⟨hmn1, hmn2⟩ := pyMinL_spec (rs.map EpochResult.score) hmapne
  obtain ⟨hmx1, hmx2⟩ := pyMaxL_spec (rs.map EpochResult.score) hmapne
  refine ⟨_, rfl, ?_, rfl, hmn1, hmn2, rfl, hmx1, hmx2, rfl⟩
  exact div_mul_cancel₀ _ hlen

/-- The three-epoch score list of the C5 witness. -/
def c5rs : List EpochResult :=
  [{ epoch := 1, score := 4 / 5, correct := 8, total := 10 },
   { epoch := 2, score := 3 / 5, correct := 6, total := 10 },
   { epoch := 3, score := 7 / 10, correct := 7, total := 10 }]

theorem C5_epoch_aggregation_witness :
    ∃ d, aggregateComplete {} "OpenRouter" c5rs = Event.complete d
      ∧ d.score = 7 / 10 ∧ d.min_score = some (3 / 5) ∧ d.max_score = some (4 / 5)
      ∧ d.score_variance = some (1 / 5) := by
  obtain ⟨d, hd, h1, h2, _, _, h3, _, _, h4⟩ :=
    C5_epoch_aggregation {} "OpenRouter" c5rs (by decide)
  have hsum : pySum (c5rs.map EpochResult.score) = 21 / 10 := by
    norm_num [c5rs, pySum]
  have hlen : ((c5rs.map EpochResult.score).length : ℚ) = 3 := by
    norm_num [c5rs]
  have hmin : pyMinL (c5rs.map EpochResult.score) = 3 / 5 := by
    norm_num [c5rs, pyMinL]
  have hmax : pyMaxL (c5rs.map EpochResult.score) = 4 / 5 := by
    norm_num [c5rs, pyMaxL]
  refine ⟨d, hd, ?_, ?_, ?_, ?_⟩
  · rw [hsum, hlen] at h1
    linarith
  · rw [h2, hmin]
  · rw [h3, hmax]
  · rw [h4, hmin, hmax]
    norm_num

/-- C10: when the subprocess succeeds but no log artifact is found (and
the accuracy figure is instead scraped from captured standard output),
a one-epoch run completes with total equal to the requested sample
limit and correct equal to int(score · limit) derived from the scraped
score, a scraped value above 1 being first divided by 100. -/
theorem C10_scrape_fallback_totals (cfg : RunConfig) (cwd : List String)
    (fs : String → Option LogData) (envs : Nat → EpochEnv) (v : ℚ)
    (hia : cfg.inspectAvailable = true) (hea : cfg.evalsAvailable = true)
    (hv : validate_parameters cfg.model_id cfg.benchmark cfg.limit
      (strLower cfg.provider) cfg.temperature cfg.seed (some cfg.epochs) = none)
    (hk : cfg.apiKey.isSome = true)
    (hep : cfg.epochs = 1)
    (htmo : (envs 0).timedOut = false) (hrc : (envs 0).returncode = 0)
    (hflp : (envs 0).foundLogPath = none) (hss : (envs 0).scrapedScore = some v) :
    (run_with_inspect_ai cfg cwd fs envs).getLast? =
      some (Event.complete
        { score := if v > 1 then v / 100 else v
          correct := pyTrunc ((if v > 1 then v / 100 else v) * cfg.limit)
          total := cfg.limit
          model := cfg.model_id
          benchmark := cfg.benchmark
          provider := strLower cfg.provider
          provider_name := ((PROVIDERS.lookup (strLower cfg.provider)).getD default).name
          seed := cfg.seed }) := by
  obtain ⟨key, hkey⟩ : ∃ k, cfg.apiKey = some k := Option.isSome_iff_exists.mp hk
  have htn : cfg.epochs.toNat = 1 := by rw [hep]; rfl
  have hre : ∀ (cmd : List String) (t : Int),
      runEpoch cfg cwd fs (envs 0) 0 cmd t =
        (epochStartEvents cfg 0 cmd ++ [Event.progress "Parsing results from output..."],
         some (scrapeEpochResult 0 v cfg.limit)) := by
    intro cmd t
    unfold runEpoch
    rw [htmo, hrc, hflp, hss]
    simp
  rw [hep] at hv
  unfold run_with_inspect_ai
  simp [hia, hea, hv, hkey, htn, hre, runEpochsLoop, epochDoneEvents, epochStartEvents,
    hep, singleComplete, scrapeEpochResult]

/-- The request of the C10 witness run. -/
def c10cfg : RunConfig :=
  { model_id := "gpt-4o", benchmark := "mmlu", limit := 10,
    provider := "openrouter", epochs := 1, apiKey := some "k" }

theorem C10_scrape_fallback_totals_witness :
    (run_with_inspect_ai c10cfg ["srv"] (fun _ => none)
        (fun _ => { stdout := "accuracy: 85", scrapedScore := some 85 })).getLast? =
      some (Event.complete
        { score := 17 / 20, correct := 8, total := 10, model := "gpt-4o",
          benchmark := "mmlu", provider := "openrouter",
          provider_name := "OpenRouter", seed := none }) := by
  have h := C10_scrape_fallback_totals c10cfg ["srv"] (fun _ => none)
    (fun _ => { stdout := "accuracy: 85", scrapedScore := some 85 }) 85
    rfl rfl (by decide) rfl rfl rfl rfl rfl rfl
  rw [h]
  norm_num [pyTrunc, c10cfg]
  decide
